import Mathlib

/-!
# Who Said That — verification of the session state machine

Shallow embedding of the core game logic of the repository:
* `src/types/game.ts` (data model, nickname validation),
* `src/lib/game-state-manager.ts` (`GameStateManager`: joins, submissions,
  round lifecycle, scoring, disconnect handling),
* `src/lib/prompts.ts` (prompt pool and selection),
* `src/lib/redis.ts` (session (de)serialization and store),
* `src/lib/game-events.ts` (broadcast payload construction).

JavaScript `Map`s are embedded as insertion-ordered association lists
(`List (String × β)`); `Map.set` replaces in place when the key exists and
appends otherwise, `Map.get` returns the first matching entry, and `Map.size`
is the length (Map keys are unique, which the operations preserve).
JavaScript `Date` values are embedded as millisecond timestamps; since the
serialization layer can leave a date un-revived (an ISO-8601 string instead of
a `Date`), the embedding distinguishes the two runtime shapes with the two
constructors of `DateVal` (`toISOString` is injective, so the string is
represented by its timestamp).  Sources of nondeterminism (`Math.random`,
`crypto.randomUUID`, `new Date()`) are passed in as explicit oracle arguments.
-/

set_option autoImplicit false

namespace WST

/-- A JavaScript runtime value of "date kind": either an actual `Date`
(identified by its millisecond timestamp) or its ISO-8601 string encoding
(`Date.prototype.toISOString` is injective, so the string is likewise
identified by the timestamp).  The distinction matters because
`deserializeGameSession` revives some, but not all, serialized dates. -/
inductive DateVal where
  | date (ms : Nat)
  | iso (ms : Nat)
deriving DecidableEq, Repr

/-- `Date.prototype.getTime`, defined on both runtime shapes. -/
def DateVal.ms : DateVal → Nat
  | .date n => n
  | .iso n => n

/-- `JSON.stringify` on a date-kind value: a `Date` becomes its ISO string, a
string stays a string. -/
def jsonDate (v : DateVal) : DateVal := .iso v.ms

/-- `new Date(isoString)`: revives an ISO string into a `Date` with the same
timestamp. -/
def reviveDate (v : DateVal) : DateVal := .date v.ms

/-- `GamePhase` from `src/types/game.ts`. -/
inductive GamePhase where
  | lobby
  | prompt
  | responding
  | guessing
  | reveal
deriving DecidableEq, Repr

/-- `Player` from `src/types/game.ts`. -/
structure Player where
  id : String
  nickname : String
  isHost : Bool
  isConnected : Bool
  joinedAt : DateVal
deriving DecidableEq, Repr

/-- `Response` from `src/types/game.ts`. -/
structure Response where
  id : String
  playerId : String
  text : String
  submittedAt : DateVal
deriving DecidableEq, Repr

/-- `PlayerGuesses` from `src/types/game.ts`; `guesses` maps response id to
guessed player id. -/
structure PlayerGuesses where
  playerId : String
  guesses : List (String × String)
  submittedAt : DateVal
deriving DecidableEq, Repr

/-- One entry of `RoundResults.responses` from `src/types/game.ts`. -/
structure ResultResponse where
  responseId : String
  text : String
  actualAuthor : Player
  guessedBy : List (String × String)
deriving DecidableEq, Repr

/-- `RoundResults` from `src/types/game.ts`. -/
structure RoundResults where
  responses : List ResultResponse
  penalties : List (String × Nat)
deriving DecidableEq, Repr

/-- `Round` from `src/types/game.ts`. -/
structure Round where
  roundNumber : Nat
  prompt : String
  responses : List (String × Response)
  guesses : List (String × PlayerGuesses)
  results : Option RoundResults
deriving DecidableEq, Repr

/-- `GameSession` from `src/types/game.ts`. -/
structure GameSession where
  code : String
  hostId : String
  players : List (String × Player)
  currentRound : Nat
  phase : GamePhase
  rounds : List Round
  usedPrompts : List String
  createdAt : DateVal
  expiresAt : DateVal
deriving DecidableEq, Repr

/-- The named errors thrown by `GameStateManager` (each `throw new Error(...)`
site of `src/lib/game-state-manager.ts` gets one variant). -/
inductive GameError where
  | invalidNickname
  | gameNotFound
  | gameInProgress
  | gameFull
  | nicknameTaken
  | playerNotFound
  | notRespondingPhase
  | noActiveRound
  | responseAlreadySubmitted
  | emptyResponse
  | notGuessingPhase
  | guessesAlreadySubmitted
  | incompleteGuesses
  | invalidResponseId
  | invalidGuessPlayerId
  | notHost
  | wrongPhaseForRound
deriving DecidableEq, Repr

deriving instance DecidableEq for Except

/-- The Redis store: one session per game code (`game:{code}` key). -/
abbrev Store := List (String × GameSession)

/-- `Map.prototype.get` (first entry with the key). -/
def mapGet? {β : Type} (m : List (String × β)) (k : String) : Option β :=
  (m.find? (fun p => p.1 == k)).map (fun p => p.2)

/-- `Map.prototype.has`. -/
def mapHas {β : Type} (m : List (String × β)) (k : String) : Bool :=
  m.any (fun p => p.1 == k)

/-- `Map.prototype.set`: replace in place when the key is present, append
otherwise. -/
def mapSet {β : Type} (m : List (String × β)) (k : String) (v : β) :
    List (String × β) :=
  if mapHas m k then m.map (fun p => if p.1 == k then (k, v) else p)
  else m ++ [(k, v)]

/-- `Map.prototype.values` as a list in insertion order. -/
def mapValues {β : Type} (m : List (String × β)) : List β :=
  m.map (fun p => p.2)

/-- `String.prototype.trim`: strip leading and trailing whitespace (embedded
over the character list so that concrete instances evaluate). -/
def strTrim (s : String) : String :=
  ⟨((s.data.dropWhile Char.isWhitespace).reverse.dropWhile
      Char.isWhitespace).reverse⟩

/-- `String.prototype.toLowerCase` (embedded over the character list). -/
def strLower (s : String) : String :=
  ⟨s.data.map Char.toLower⟩

/-- `validateNickname` from `src/types/game.ts`: non-blank, trimmed length in
[3, 20], and the untrimmed string matches `^[a-zA-Z0-9 ]+$`. -/
def validateNickname (nickname : String) : Bool :=
  if (strTrim nickname).length == 0 then false
  else if (strTrim nickname).length < 3 || (strTrim nickname).length > 20 then
    false
  else decide (0 < nickname.length)
    && nickname.data.all (fun c => c.isAlphanum || c == ' ')

/-- `GameStateManager.joinGame`.  The fresh player id (`crypto.randomUUID`)
and the current time (`new Date()`) are oracle arguments.  The store write
(`updateGame`) happens only on the success path; every `throw` leaves the
store untouched. -/
def joinGame (store : Store) (code nickname : String)
    (newPlayerId : String) (now : Nat) :
    Store × Except GameError (GameSession × Player) :=
  if validateNickname nickname = false then (store, .error .invalidNickname)
  else
    match mapGet? store code with
    | none => (store, .error .gameNotFound)
    | some session =>
      if session.phase ≠ .lobby then (store, .error .gameInProgress)
      else if 8 ≤ session.players.length then (store, .error .gameFull)
      else if (mapValues session.players).any
          (fun p => strLower p.nickname == strLower nickname) then
        (store, .error .nicknameTaken)
      else
        let player : Player :=
          { id := newPlayerId, nickname := nickname, isHost := false,
            isConnected := true, joinedAt := .date now }
        let session' :=
          { session with players := mapSet session.players newPlayerId player }
        (mapSet store code session', .ok (session', player))

/-- `GameStateManager.submitResponse`.  The fresh response id and the current
time are oracle arguments.  All validations run, in source order, before any
assignment; the store is written only on success. -/
def submitResponse (store : Store) (code playerId responseText : String)
    (newResponseId : String) (now : Nat) :
    Store × Except GameError GameSession :=
  match mapGet? store code with
  | none => (store, .error .gameNotFound)
  | some session =>
    if mapHas session.players playerId = false then
      (store, .error .playerNotFound)
    else if session.phase ≠ .responding then
      (store, .error .notRespondingPhase)
    else
      match session.rounds.get? session.currentRound with
      | none => (store, .error .noActiveRound)
      | some currentRound =>
        if (mapValues currentRound.responses).any
            (fun r => r.playerId == playerId) then
          (store, .error .responseAlreadySubmitted)
        else if (strTrim responseText).length == 0 then
          (store, .error .emptyResponse)
        else
          let response : Response :=
            { id := newResponseId, playerId := playerId,
              text := strTrim responseText, submittedAt := .date now }
          let round' :=
            { currentRound with
              responses := mapSet currentRound.responses newResponseId response }
          let phase' : GamePhase :=
            if round'.responses.length = session.players.length then .guessing
            else session.phase
          let session' :=
            { session with
              rounds := session.rounds.set session.currentRound round',
              phase := phase' }
          (mapSet store code session', .ok session')

/-- The fixed prompt pool `PROMPTS` from `src/lib/prompts.ts` (60 prompts). -/
def PROMPTS : List String := [
  "What\x27s your most embarrassing moment from high school?",
  "If you could have dinner with any historical figure, who would it be?",
  "What\x27s the weirdest food combination you secretly enjoy?",
  "What\x27s your go-to karaoke song?",
  "If you could live in any fictional universe, which would you choose?",
  "What\x27s the most ridiculous thing you\x27ve ever bought?",
  "What\x27s your most unpopular opinion?",
  "If you could instantly master any skill, what would it be?",
  "What\x27s the worst haircut you\x27ve ever had?",
  "What\x27s your guilty pleasure TV show or movie?",
  "If you could swap lives with anyone for a day, who would it be?",
  "What\x27s the strangest dream you\x27ve ever had?",
  "What\x27s your most irrational fear?",
  "If you could only eat one food for the rest of your life, what would it be?",
  "What\x27s the most trouble you got into as a kid?",
  "What\x27s your secret talent that nobody knows about?",
  "If you could time travel, would you go to the past or future?",
  "What\x27s the worst date you\x27ve ever been on?",
  "What\x27s your most used emoji?",
  "If you were a superhero, what would your power be?",
  "What\x27s the most embarrassing thing in your search history?",
  "What\x27s your biggest pet peeve?",
  "If you could be famous for something, what would it be?",
  "What\x27s the weirdest habit you have?",
  "What\x27s your favorite conspiracy theory?",
  "If you could eliminate one thing from daily life, what would it be?",
  "What\x27s the most spontaneous thing you\x27ve ever done?",
  "What\x27s your comfort food?",
  "If you could have any animal as a pet, what would you choose?",
  "What\x27s the worst gift you\x27ve ever received?",
  "What\x27s your most controversial hot take?",
  "If you could live anywhere in the world, where would it be?",
  "What\x27s the most embarrassing thing you\x27ve done while drunk?",
  "What\x27s your biggest regret?",
  "If you could redo one moment in your life, what would it be?",
  "What\x27s the strangest thing you believed as a child?",
  "What\x27s your worst fashion choice?",
  "If you could have dinner with your 15-year-old self, what would you say?",
  "What\x27s the most awkward text you\x27ve ever sent?",
  "What\x27s your hidden talent?",
  "If you could be any age forever, what age would you choose?",
  "What\x27s the most embarrassing song on your playlist?",
  "What\x27s your biggest fear about the future?",
  "If you could change one thing about yourself, what would it be?",
  "What\x27s the weirdest compliment you\x27ve ever received?",
  "What\x27s your most embarrassing childhood memory?",
  "If you could have any job for a day, what would it be?",
  "What\x27s the most ridiculous lie you\x27ve ever told?",
  "What\x27s your biggest \x27what if\x27 in life?",
  "If you could uninvent one thing, what would it be?",
  "What\x27s the most cringe thing you\x27ve ever posted on social media?",
  "What\x27s your most embarrassing autocorrect fail?",
  "If you could read minds for a day, whose mind would you read?",
  "What\x27s the worst advice you\x27ve ever received?",
  "What\x27s your most irrational purchase?",
  "If you could have any fictional character as your best friend, who would it be?",
  "What\x27s the most embarrassing thing your parents have done?",
  "What\x27s your biggest kitchen disaster?",
  "If you could erase one memory, what would it be?",
  "What\x27s the most awkward encounter you\x27ve had with a celebrity or crush?"
]

/-- `selectRandomPrompt` from `src/lib/prompts.ts`: choose a random prompt not
in `usedPrompts`, falling back to the full pool once every prompt has been
used.  `rand` is the `Math.random` oracle: the selected index is `rand`
reduced modulo the pool size (the pool is never empty, so the `getD` default
is never reached). -/
def selectRandomPrompt (rand : Nat) (usedPrompts : List String) : String :=
  let availablePrompts := PROMPTS.filter (fun prompt => !usedPrompts.contains prompt)
  let promptPool := if availablePrompts.length > 0 then availablePrompts else PROMPTS
  promptPool.getD (rand % promptPool.length) ""

/-- `GameStateManager.startRound`.  `rand` is the `Math.random` oracle used
when no caller prompt is supplied (an empty or blank caller prompt falls back
to automatic selection, mirroring the truthiness test in the source). -/
def startRound (store : Store) (code hostId : String) (prompt : Option String)
    (rand : Nat) : Store × Except GameError GameSession :=
  match mapGet? store code with
  | none => (store, .error .gameNotFound)
  | some session =>
    if session.hostId ≠ hostId then (store, .error .notHost)
    else if session.phase ≠ .lobby ∧ session.phase ≠ .reveal then
      (store, .error .wrongPhaseForRound)
    else
      let selectedPrompt : String :=
        match prompt with
        | some p => if 0 < (strTrim p).length then strTrim p
                    else selectRandomPrompt rand session.usedPrompts
        | none => selectRandomPrompt rand session.usedPrompts
      let roundNumber := session.rounds.length
      let newRound : Round :=
        { roundNumber := roundNumber, prompt := selectedPrompt,
          responses := [], guesses := [], results := none }
      let session' :=
        { session with
          rounds := session.rounds ++ [newRound],
          currentRound := roundNumber,
          phase := .responding,
          usedPrompts := session.usedPrompts ++ [selectedPrompt] }
      (mapSet store code session', .ok session')

/-- Fallback author used to embed the non-null assertion
`session.players.get(response.playerId)!` of `calculateResults`; every caller
only seals rounds whose responses were authored by session players, so the
fallback is never reached there. -/
def defaultPlayer : Player :=
  { id := "", nickname := "", isHost := false, isConnected := false,
    joinedAt := .date 0 }

/-- Inner loop of `GameStateManager.calculateResults`: for one response, walk
`round.guesses` in insertion order, collecting `guessedBy` and bumping the
penalty of each wrong guesser.  The `match` plus emptiness test embeds the
JavaScript truthiness test `if (guess)` (`undefined` and `""` are falsy). -/
def collectGuessesFor (guessesList : List (String × PlayerGuesses))
    (response : Response) (penalties : List (String × Nat)) :
    List (String × String) × List (String × Nat) :=
  guessesList.foldl
    (fun acc gp =>
      match mapGet? gp.2.guesses response.id with
      | none => acc
      | some guess =>
        if guess = "" then acc
        else
          let guessedBy' := mapSet acc.1 gp.1 guess
          let penalties' :=
            if guess ≠ response.playerId then
              mapSet acc.2 gp.1 (((mapGet? acc.2 gp.1).getD 0) + 1)
            else acc.2
          (guessedBy', penalties'))
    ([], penalties)

/-- `GameStateManager.calculateResults`: initialize a zero penalty for every
session player, then walk the responses in insertion order, building the
results rows and accumulating penalties for wrong guesses. -/
def calculateResults (session : GameSession) (round : Round) : RoundResults :=
  let initialPenalties : List (String × Nat) :=
    session.players.map (fun p => (p.1, 0))
  let folded :=
    round.responses.foldl
      (fun (acc : List ResultResponse × List (String × Nat)) entry =>
        let response := entry.2
        let collected := collectGuessesFor round.guesses response acc.2
        (acc.1 ++ [{ responseId := response.id, text := response.text,
                     actualAuthor :=
                       (mapGet? session.players response.playerId).getD defaultPlayer,
                     guessedBy := collected.1 }],
         collected.2))
      ([], initialPenalties)
  { responses := folded.1, penalties := folded.2 }

/-- `GameStateManager.submitGuesses`.  The guess map argument is an
association list; the current time is an oracle argument.  All validations
run, in source order, before any assignment. -/
def submitGuesses (store : Store) (code playerId : String)
    (guesses : List (String × String)) (now : Nat) :
    Store × Except GameError GameSession :=
  match mapGet? store code with
  | none => (store, .error .gameNotFound)
  | some session =>
    if mapHas session.players playerId = false then
      (store, .error .playerNotFound)
    else if session.phase ≠ .guessing then
      (store, .error .notGuessingPhase)
    else
      match session.rounds.get? session.currentRound with
      | none => (store, .error .noActiveRound)
      | some currentRound =>
        if mapHas currentRound.guesses playerId then
          (store, .error .guessesAlreadySubmitted)
        else if guesses.length ≠ currentRound.responses.length then
          (store, .error .incompleteGuesses)
        else if guesses.any (fun g => !(mapHas currentRound.responses g.1)) then
          (store, .error .invalidResponseId)
        else if guesses.any (fun g => !(mapHas session.players g.2)) then
          (store, .error .invalidGuessPlayerId)
        else
          let playerGuesses : PlayerGuesses :=
            { playerId := playerId, guesses := guesses, submittedAt := .date now }
          let round1 :=
            { currentRound with
              guesses := mapSet currentRound.guesses playerId playerGuesses }
          let allGuessed : Bool :=
            decide (round1.guesses.length = session.players.length)
          let round2 :=
            if allGuessed then
              { round1 with results := some (calculateResults session round1) }
            else round1
          let session' :=
            { session with
              rounds := session.rounds.set session.currentRound round2,
              phase := if allGuessed then .reveal else session.phase }
          (mapSet store code session', .ok session')

/-- Swap two positions of a list (identity when either index is out of
bounds); the building block of the Fisher-Yates loop. -/
def listSwap {α : Type} (l : List α) (i j : Nat) : List α :=
  match l.get? i, l.get? j with
  | some x, some y => (l.set i y).set j x
  | _, _ => l

/-- The Fisher-Yates loop of `GameStateManager.shuffleArray`, counting the
loop index `i` down to `1`; at index `i` it swaps position `i` with position
`r % (i+1)` where `r` is the next `Math.random` draw (each draw yields
`Math.floor(Math.random() * (i + 1))`, a uniform index in `[0, i]`).  If the
oracle runs out of draws the remaining iterations leave the list unchanged. -/
def shuffleAux {α : Type} (l : List α) : Nat → List Nat → List α
  | 0, _ => l
  | _ + 1, [] => l
  | i + 1, r :: rs => shuffleAux (listSwap l (i + 1) (r % (i + 2))) i rs

/-- `GameStateManager.shuffleArray` (Fisher-Yates on a copy), with the
`Math.random` draws passed as the oracle list `rand`. -/
def shuffleArray {α : Type} (rand : List Nat) (array : List α) : List α :=
  match array.length with
  | 0 => array
  | n + 1 => shuffleAux array n rand

/-- `GameStateManager.getShuffledResponses`: the responses of the round, in
map insertion order, shuffled. -/
def getShuffledResponses (round : Round) (rand : List Nat) : List Response :=
  shuffleArray rand (mapValues round.responses)

/-- The `responses-ready` broadcast payload built by `notifyResponsesReady` in
`src/lib/game-events.ts`: for each response only its `id` and `text`
(`playerId` intentionally omitted for anonymity). -/
def responsesReadyPayload (responses : List Response) :
    List (String × String) :=
  responses.map (fun r => (r.id, r.text))

/-- Sorting by `joinedAt`, embedding
`connectedPlayers.sort((a, b) => a.joinedAt.getTime() - b.joinedAt.getTime())`
of `handlePlayerDisconnect` as an insertion sort on the timestamp (no theorem
below relies on the order among equal timestamps, so the stability difference
between sorts is immaterial). -/
def sortByJoinedAt (l : List Player) : List Player :=
  l.insertionSort (fun a b => a.joinedAt.ms ≤ b.joinedAt.ms)

/-- Result record of `handlePlayerDisconnect`. -/
structure DisconnectOutcome where
  session : GameSession
  newHost : Option Player
  phaseChanged : Bool
deriving DecidableEq, Repr

/-- The player-map mutations of `GameStateManager.handlePlayerDisconnect`
(given the fetched `player` entry for `pid`): mark the player disconnected,
and when the disconnecting player is the current host, promote the other
connected player with the least `joinedAt` and demote the disconnecting one.
Returns the updated player map, the (possibly new) host id and the promoted
player, if any. -/
def discPlayers (players : List (String × Player)) (hostId : String)
    (pid : String) (player : Player) :
    List (String × Player) × String × Option Player :=
  let player1 := { player with isConnected := false }
  let players1 := mapSet players pid player1
  if player.isHost = true ∧ hostId = pid then
    match sortByJoinedAt ((mapValues players1).filter
        (fun p => p.id != pid && p.isConnected)) with
    | [] => (players1, hostId, none)
    | q :: _ =>
      let newHost := { q with isHost := true }
      (mapSet (mapSet players1 q.id newHost) pid
         { player1 with isHost := false },
       q.id, some newHost)
  else (players1, hostId, none)

/-- The auto-advance re-evaluation of `handlePlayerDisconnect`, over the
already-updated player map: `responding → guessing` when every connected
player has responded, then `guessing → reveal` (computing the results) when
every connected player has guessed.  Returns the updated rounds, the new
phase and the `phaseChanged` flag. -/
def discAdvance (players2 : List (String × Player)) (hostId2 : String)
    (s : GameSession) : List Round × GamePhase × Bool :=
  let connectedIds := ((mapValues players2).filter
    (fun p => p.isConnected)).map (fun p => p.id)
  let connectedPlayerCount := connectedIds.length
  if connectedPlayerCount = 0 then (s.rounds, s.phase, false)
  else
    match s.rounds.get? s.currentRound with
    | none => (s.rounds, s.phase, false)
    | some currentRound =>
      let step1 : GamePhase × Bool :=
        if s.phase = .responding ∧
            ((mapValues currentRound.responses).filter
              (fun r => connectedIds.contains r.playerId)).length
              = connectedPlayerCount
        then (.guessing, true) else (s.phase, false)
      if step1.1 = .guessing ∧
          ((currentRound.guesses.map (fun g => g.1)).filter
            (fun q => connectedIds.contains q)).length = connectedPlayerCount
      then
        let sMid := { s with players := players2, hostId := hostId2 }
        (s.rounds.set s.currentRound
           { currentRound with
             results := some (calculateResults sMid currentRound) },
         .reveal, true)
      else (s.rounds, step1.1, step1.2)

/-- The in-memory mutations of `GameStateManager.handlePlayerDisconnect` on a
fetched session, given the fetched `player` entry for `pid`: the player-map
step followed by the auto-advance step. -/
def applyDisconnect (s : GameSession) (pid : String) (player : Player) :
    DisconnectOutcome :=
  let hostStep := discPlayers s.players s.hostId pid player
  let advance := discAdvance hostStep.1 hostStep.2.1 s
  { session :=
      { s with players := hostStep.1, hostId := hostStep.2.1,
               rounds := advance.1, phase := advance.2.1 },
    newHost := hostStep.2.2,
    phaseChanged := advance.2.2 }

/-- `GameStateManager.handlePlayerDisconnect`: fetch, apply the in-memory
mutations, persist. -/
def handlePlayerDisconnect (store : Store) (code pid : String) :
    Store × Except GameError DisconnectOutcome :=
  match mapGet? store code with
  | none => (store, .error .gameNotFound)
  | some s =>
    match mapGet? s.players pid with
    | none => (store, .error .playerNotFound)
    | some player =>
      let out := applyDisconnect s pid player
      (mapSet store code out.session, .ok out)

/-- The serialized form of `RoundResults` (from `serializeGameSession` in
`src/lib/redis.ts`): the results rows are written under the key `guessedBy`
(`guessedBy: round.results.responses.map(...)`); the object spread also leaves
a stray `responses` key whose inner `Map`s degrade to `{}` under
`JSON.stringify`, which the deserializer never reads and which is therefore
omitted from the embedding. -/
structure SerializedResults where
  guessedBy : List ResultResponse
  penalties : List (String × Nat)
deriving DecidableEq, Repr

/-- The serialized form of a `Round`. -/
structure SerializedRound where
  roundNumber : Nat
  prompt : String
  responses : List (String × Response)
  guesses : List (String × PlayerGuesses)
  results : Option SerializedResults
deriving DecidableEq, Repr

/-- The serialized form of a `GameSession` (the JSON value produced by
`serializeGameSession` and handed back to `deserializeGameSession`; `Map`s
have become entry arrays and every `Date` an ISO string). -/
structure SerializedSession where
  code : String
  hostId : String
  players : List (String × Player)
  currentRound : Nat
  phase : GamePhase
  rounds : List SerializedRound
  usedPrompts : List String
  createdAt : DateVal
  expiresAt : DateVal
deriving DecidableEq, Repr

/-- `JSON.stringify` on a `Player`: the nested `joinedAt` date becomes its ISO
string (`Date.prototype.toJSON`). -/
def stringifyPlayer (p : Player) : Player :=
  { p with joinedAt := jsonDate p.joinedAt }

/-- `serializeGameSession` from `src/lib/redis.ts` composed with the
`JSON.stringify`/`JSON.parse` round trip that the store performs: `Map`s are
converted to entry arrays explicitly, and every remaining `Date` is converted
to its ISO string by `JSON.stringify` (`createdAt`/`expiresAt` are converted
explicitly with `toISOString`, which yields the same string). -/
def serializeGameSession (s : GameSession) : SerializedSession :=
  { code := s.code
    hostId := s.hostId
    players := s.players.map (fun e => (e.1, stringifyPlayer e.2))
    currentRound := s.currentRound
    phase := s.phase
    rounds := s.rounds.map (fun round =>
      { roundNumber := round.roundNumber
        prompt := round.prompt
        responses := round.responses.map (fun e =>
          (e.1, { e.2 with submittedAt := jsonDate e.2.submittedAt }))
        guesses := round.guesses.map (fun e =>
          (e.1, { e.2 with submittedAt := jsonDate e.2.submittedAt }))
        results := round.results.map (fun res =>
          { guessedBy := res.responses.map (fun rr =>
              { rr with actualAuthor := stringifyPlayer rr.actualAuthor })
            penalties := res.penalties }) })
    usedPrompts := s.usedPrompts
    createdAt := jsonDate s.createdAt
    expiresAt := jsonDate s.expiresAt }

/-- `deserializeGameSession` from `src/lib/redis.ts`: rebuilds the `Map`s and
revives the dates of players, responses, guesses and the session itself with
`new Date(...)`.  Inside `results` it rebuilds the rows from the serialized
`guessedBy` key via an object spread, so the nested
`actualAuthor.joinedAt` ISO string is left unrevived. -/
def deserializeGameSession (d : SerializedSession) : GameSession :=
  { code := d.code
    hostId := d.hostId
    players := d.players.map (fun e =>
      (e.1, { e.2 with joinedAt := reviveDate e.2.joinedAt }))
    currentRound := d.currentRound
    phase := d.phase
    rounds := d.rounds.map (fun round =>
      { roundNumber := round.roundNumber
        prompt := round.prompt
        responses := round.responses.map (fun e =>
          (e.1, { e.2 with submittedAt := reviveDate e.2.submittedAt }))
        guesses := round.guesses.map (fun e =>
          (e.1, { e.2 with submittedAt := reviveDate e.2.submittedAt }))
        results := round.results.map (fun res =>
          { responses := res.guessedBy
            penalties := res.penalties }) })
    usedPrompts := d.usedPrompts
    createdAt := reviveDate d.createdAt
    expiresAt := reviveDate d.expiresAt }

/-- The penalty count in the words of the specification: the number of
responses of the round for which player `pid` submitted a guess whose guessed
author differs from the true author (`playerId`) of the response. -/
def specWrongGuessCount (round : Round) (pid : String) : Nat :=
  round.responses.countP (fun entry =>
    match mapGet? round.guesses pid with
    | none => false
    | some pg =>
      match mapGet? pg.guesses entry.2.id with
      | none => false
      | some g => g != entry.2.playerId)

/-- The evolution of `usedPrompts` under successive automatic
`startRound` calls: each call selects `selectRandomPrompt` with the next
`Math.random` draw and appends the selection (as proved for a single call in
the `startRound` theorem below). -/
def autoSelectRun (used : List String) (rands : List Nat) : List String :=
  match rands with
  | [] => used
  | r :: rs => autoSelectRun (used ++ [selectRandomPrompt r used]) rs

/-- Replacing at a key that is absent is the identity. -/
theorem map_replace_of_not_has {β : Type} (m : List (String × β)) (k : String)
    (v : β) (h : mapHas m k = false) :
    (m.map fun p => if p.1 == k then (k, v) else p) = m := by
  induction m with
  | nil => rfl
  | cons p m ih =>
    simp only [mapHas, List.any_cons, Bool.or_eq_false_iff] at h
    simp only [List.map_cons]
    rw [if_neg (show ¬((p.1 == k) = true) by simp [h.1]), ih h.2]

/-- `mapSet` on a cons whose head has the key. -/
theorem mapSet_cons_eq {β : Type} (p : String × β) (m : List (String × β))
    (k : String) (v : β) (h : (p.1 == k) = true) :
    mapSet (p :: m) k v =
      (k, v) :: (m.map fun q => if q.1 == k then (k, v) else q) := by
  simp only [mapSet, mapHas, List.any_cons, h, Bool.true_or, if_true,
    List.map_cons]

/-- `mapSet` on a cons whose head misses the key. -/
theorem mapSet_cons_ne {β : Type} (p : String × β) (m : List (String × β))
    (k : String) (v : β) (h : (p.1 == k) = false) :
    mapSet (p :: m) k v = p :: mapSet m k v := by
  have hne : p.1 ≠ k := by simpa using h
  simp only [mapSet, mapHas, List.any_cons, h, Bool.false_or]
  by_cases hm : m.any (fun q => q.1 == k)
  · simp [hm, hne]
  · simp [hm, hne]

theorem mapGet?_nil {β : Type} (k : String) :
    mapGet? ([] : List (String × β)) k = none := rfl

theorem mapGet?_cons {β : Type} (p : String × β) (m : List (String × β))
    (k : String) :
    mapGet? (p :: m) k = if p.1 == k then some p.2 else mapGet? m k := by
  by_cases h : (p.1 == k) = true
  · simp [mapGet?, List.find?_cons, h]
  · have h' : (p.1 == k) = false := by
      simpa using h
    simp [mapGet?, List.find?_cons, h']

/-- Looking up `k'` is unaffected by replacing the entries of another key. -/
theorem mapGet?_map_replace_ne {β : Type} (m : List (String × β))
    (k k' : String) (v : β) (h : k' ≠ k) :
    mapGet? (m.map fun p => if p.1 == k then (k, v) else p) k'
      = mapGet? m k' := by
  induction m with
  | nil => rfl
  | cons p m ih =>
    by_cases hpk : (p.1 == k) = true
    · have hkk' : (k == k') = false := beq_eq_false_iff_ne.mpr (Ne.symm h)
      have hpke : p.1 = k := by simpa using hpk
      have hpk' : (p.1 == k') = false :=
        beq_eq_false_iff_ne.mpr (hpke ▸ Ne.symm h)
      simp only [List.map_cons]
      rw [if_pos hpk, mapGet?_cons, mapGet?_cons,
        if_neg (show ¬((k == k') = true) by simp [hkk']),
        if_neg (show ¬((p.1 == k') = true) by simp [hpk'])]
      exact ih
    · have hpk0 : (p.1 == k) = false := by simpa using hpk
      simp only [List.map_cons]
      rw [if_neg (show ¬((p.1 == k) = true) by simp [hpk0]),
        mapGet?_cons, mapGet?_cons, ih]

theorem mapGet?_set_self {β : Type} (m : List (String × β)) (k : String)
    (v : β) : mapGet? (mapSet m k v) k = some v := by
  induction m with
  | nil => simp [mapSet, mapHas, mapGet?]
  | cons p m ih =>
    by_cases hpk : (p.1 == k) = true
    · rw [mapSet_cons_eq p m k v hpk]
      simp [mapGet?_cons]
    · have hpk0 : (p.1 == k) = false := by simpa using hpk
      rw [mapSet_cons_ne p m k v hpk0]
      simp [mapGet?_cons, hpk0, ih]

theorem mapGet?_set_other {β : Type} (m : List (String × β)) (k k' : String)
    (v : β) (h : k' ≠ k) : mapGet? (mapSet m k v) k' = mapGet? m k' := by
  induction m with
  | nil =>
    have : (k == k') = false := beq_eq_false_iff_ne.mpr (Ne.symm h)
    simp [mapSet, mapHas, mapGet?, this]
  | cons p m ih =>
    by_cases hpk : (p.1 == k) = true
    · have hkk' : (k == k') = false := beq_eq_false_iff_ne.mpr (Ne.symm h)
      have hpke : p.1 = k := by simpa using hpk
      have hpk' : (p.1 == k') = false :=
        beq_eq_false_iff_ne.mpr (hpke ▸ Ne.symm h)
      rw [mapSet_cons_eq p m k v hpk, mapGet?_cons, mapGet?_cons,
        if_neg (show ¬((k == k') = true) by simp [hkk']),
        if_neg (show ¬((p.1 == k') = true) by simp [hpk'])]
      exact mapGet?_map_replace_ne m k k' v h
    · have hpk0 : (p.1 == k) = false := by simpa using hpk
      rw [mapSet_cons_ne p m k v hpk0]
      simp [mapGet?_cons, ih]

theorem mapHas_set_self {β : Type} (m : List (String × β)) (k : String)
    (v : β) : mapHas (mapSet m k v) k = true := by
  induction m with
  | nil => simp [mapSet, mapHas]
  | cons p m ih =>
    by_cases hpk : (p.1 == k) = true
    · rw [mapSet_cons_eq p m k v hpk]
      simp [mapHas]
    · have hpk0 : (p.1 == k) = false := by simpa using hpk
      rw [mapSet_cons_ne p m k v hpk0]
      simp only [mapHas, List.any_cons, hpk0, Bool.false_or]
      exact ih

/-- Setting the same key-value pair twice is the same as setting it once. -/
theorem mapSet_set_same {β : Type} (m : List (String × β)) (k : String)
    (v : β) : mapSet (mapSet m k v) k v = mapSet m k v := by
  induction m with
  | nil =>
    simp [mapSet, mapHas]
  | cons p m ih =>
    by_cases hpk : (p.1 == k) = true
    · rw [mapSet_cons_eq p m k v hpk]
      rw [mapSet_cons_eq (k, v) _ k v (by simp)]
      congr 1
      have hfix : ∀ q ∈ (m.map fun q => if q.1 == k then (k, v) else q),
          (if q.1 == k then ((k, v) : String × β) else q) = id q := by
        intro q hq
        rcases List.mem_map.mp hq with ⟨q0, _, hq0⟩
        by_cases hq0k : (q0.1 == k) = true
        · have hq' : q = (k, v) := by
            rw [← hq0]
            simp [hq0k]
          simp [hq']
        · have hq0k0 : (q0.1 == k) = false := by simpa using hq0k
          have hq' : q = q0 := by
            rw [← hq0]
            simp [hq0k0]
          rw [hq', if_neg (show ¬((q0.1 == k) = true) by simp [hq0k0])]
          rfl
      exact (List.map_congr_left hfix).trans (List.map_id _)
    · have hpk0 : (p.1 == k) = false := by simpa using hpk
      rw [mapSet_cons_ne p m k v hpk0, mapSet_cons_ne p _ k v hpk0, ih]

/-- C9 (amended part): with a *valid* nickname, `joinGame` on a code unknown
to the store fails `SessionNotFound` and leaves the store unchanged. -/
theorem joinGame_unknown_code (store : Store) (code nickname newPlayerId : String)
    (now : Nat) (hvalid : validateNickname nickname = true)
    (hcode : mapGet? store code = none) :
    joinGame store code nickname newPlayerId now
      = (store, .error .gameNotFound) := by
  simp [joinGame, hvalid, hcode]

/-- C9 (counterexample): the claim says the unknown-code failure is
`SessionNotFound` regardless of the nickname supplied; but `joinGame`
validates the nickname *before* consulting the store, so an invalid nickname
(here `"ab"`, too short) on an unknown code fails `InvalidNickname`, not
`SessionNotFound`. -/
theorem joinGame_unknown_code_counterexample :
    (joinGame [] "ABCDEF" "ab" "p1" 0).2 = .error .invalidNickname ∧
    (joinGame [] "ABCDEF" "ab" "p1" 0).2 ≠ .error .gameNotFound := by
  constructor
  · decide
  · decide

/-- Witness for `joinGame_unknown_code` at a concrete valid nickname and
unknown code. -/
theorem joinGame_unknown_code_witness :
    validateNickname "Alice" = true ∧
    mapGet? ([] : Store) "ABCDEF" = none ∧
    joinGame [] "ABCDEF" "Alice" "p1" 0 = ([], .error .gameNotFound) :=
  ⟨by decide, by decide,
    joinGame_unknown_code [] "ABCDEF" "Alice" "p1" 0 (by decide) (by decide)⟩

/-- Helper: `submitResponse` either leaves the store untouched or succeeds
(every `throw` happens before the store write). -/
theorem submitResponse_shape (st : Store) (c p t r : String) (n : Nat) :
    (submitResponse st c p t r n).1 = st ∨
      ∃ s', (submitResponse st c p t r n).2 = Except.ok s' := by
  unfold submitResponse
  split
  · left
    rfl
  · split
    · left
      rfl
    · split
      · left
        rfl
      · split
        · left
          rfl
        · split
          · left
            rfl
          · split
            · left
              rfl
            · right
              exact ⟨_, rfl⟩

/-- C5: submitting a response to a session that is not in the `responding`
phase fails with the wrong-phase state error and leaves the stored session
unchanged; and, in general, every failed precondition of `submitResponse`
aborts with zero mutation of the store. -/
theorem submitResponse_wrong_phase_no_mutation
    (store : Store) (code playerId responseText newResponseId : String)
    (now : Nat) (s : GameSession)
    (hs : mapGet? store code = some s)
    (hp : mapHas s.players playerId = true)
    (hph : s.phase ≠ .responding) :
    submitResponse store code playerId responseText newResponseId now
      = (store, .error .notRespondingPhase) ∧
    ∀ (st : Store) (c p t r : String) (n : Nat) (e : GameError),
      (submitResponse st c p t r n).2 = Except.error e →
      (submitResponse st c p t r n).1 = st := by
  constructor
  · simp [submitResponse, hs, hp, hph]
  · intro st c p t r n e herr
    rcases submitResponse_shape st c p t r n with hst | ⟨s', hok⟩
    · exact hst
    · rw [hok] at herr
      cases herr

/-- Witness for `submitResponse_wrong_phase_no_mutation`: a concrete
one-player session in the `guessing` phase. -/
def wSession5 : GameSession :=
  { code := "ABCDEF", hostId := "P1",
    players := [("P1",
      { id := "P1", nickname := "Alice", isHost := true, isConnected := true,
        joinedAt := .date 10 })],
    currentRound := 0, phase := .guessing,
    rounds := [{ roundNumber := 0, prompt := "Q", responses := [],
                 guesses := [], results := none }],
    usedPrompts := ["Q"], createdAt := .date 0, expiresAt := .date 100 }

theorem submitResponse_wrong_phase_witness :
    mapGet? [("ABCDEF", wSession5)] "ABCDEF" = some wSession5 ∧
    mapHas wSession5.players "P1" = true ∧
    wSession5.phase ≠ .responding ∧
    (submitResponse [("ABCDEF", wSession5)] "ABCDEF" "P1" "hi" "R9" 7
        = ([("ABCDEF", wSession5)], .error .notRespondingPhase) ∧
      ∀ (st : Store) (c p t r : String) (n : Nat) (e : GameError),
        (submitResponse st c p t r n).2 = Except.error e →
        (submitResponse st c p t r n).1 = st) :=
  ⟨by decide, by decide, by decide,
    submitResponse_wrong_phase_no_mutation [("ABCDEF", wSession5)] "ABCDEF"
      "P1" "hi" "R9" 7 wSession5 (by decide) (by decide) (by decide)⟩

/-- C10: `submitGuesses` imposes no constraint relating the guesser to the
guessed beyond id validity: any guess list covering the responses of the
round whose keys are response ids and whose values are session player ids is
accepted, including self-guesses and repeated guessed players. -/
theorem submitGuesses_accepts_any_valid_ids
    (store : Store) (code playerId : String)
    (guesses : List (String × String)) (now : Nat)
    (s : GameSession) (round : Round)
    (hs : mapGet? store code = some s)
    (hp : mapHas s.players playerId = true)
    (hph : s.phase = .guessing)
    (hr : s.rounds.get? s.currentRound = some round)
    (hnew : mapHas round.guesses playerId = false)
    (hlen : guesses.length = round.responses.length)
    (hkeys : ∀ g ∈ guesses, mapHas round.responses g.1 = true)
    (hvals : ∀ g ∈ guesses, mapHas s.players g.2 = true) :
    ∃ s', (submitGuesses store code playerId guesses now).2 = Except.ok s' := by
  have h1 : (guesses.any fun g => !(mapHas round.responses g.1)) = false := by
    rw [List.any_eq_false]
    intro g hg
    simp [hkeys g hg]
  have h2 : (guesses.any fun g => !(mapHas s.players g.2)) = false := by
    rw [List.any_eq_false]
    intro g hg
    simp [hvals g hg]
  have hr' : s.rounds[s.currentRound]? = some round := by
    simpa using hr
  simp [submitGuesses, hs, hp, hph, hr', hnew, hlen, h1, h2]

/-- Witness for `submitGuesses_accepts_any_valid_ids`: player `P1` names
themself as the author of both responses (one of which `P2` wrote). -/
def wSession10 : GameSession :=
  { code := "ABCDEF", hostId := "P1",
    players :=
      [("P1", { id := "P1", nickname := "Alice", isHost := true,
                isConnected := true, joinedAt := .date 1 }),
       ("P2", { id := "P2", nickname := "Bob", isHost := false,
                isConnected := true, joinedAt := .date 2 })],
    currentRound := 0, phase := .guessing,
    rounds := [{ roundNumber := 0, prompt := "Q",
                 responses :=
                   [("R1", { id := "R1", playerId := "P1", text := "a",
                             submittedAt := .date 3 }),
                    ("R2", { id := "R2", playerId := "P2", text := "b",
                             submittedAt := .date 4 })],
                 guesses := [], results := none }],
    usedPrompts := ["Q"], createdAt := .date 0, expiresAt := .date 100 }

theorem submitGuesses_accepts_any_valid_ids_witness :
    mapGet? [("ABCDEF", wSession10)] "ABCDEF" = some wSession10 ∧
    ∃ s', (submitGuesses [("ABCDEF", wSession10)] "ABCDEF" "P1"
        [("R1", "P1"), ("R2", "P1")] 9).2 = Except.ok s' :=
  ⟨by decide,
    submitGuesses_accepts_any_valid_ids [("ABCDEF", wSession10)] "ABCDEF" "P1"
      [("R1", "P1"), ("R2", "P1")] 9 wSession10
      (wSession10.rounds.get ⟨0, by decide⟩)
      (by decide) (by decide) (by decide) (by decide) (by decide) (by decide)
      (by decide) (by decide)⟩

/-- A concrete session whose current round carries populated `RoundResults`
(the state reached right after a round is sealed). -/
def exResultSession : GameSession :=
  { code := "ABCDEF", hostId := "P1",
    players :=
      [("P1", { id := "P1", nickname := "Alice", isHost := true,
                isConnected := true, joinedAt := .date 5 })],
    currentRound := 0, phase := .reveal,
    rounds := [{ roundNumber := 0, prompt := "Q",
                 responses :=
                   [("R1", { id := "R1", playerId := "P1", text := "t",
                             submittedAt := .date 6 })],
                 guesses :=
                   [("P1", { playerId := "P1", guesses := [("R1", "P1")],
                             submittedAt := .date 7 })],
                 results := some
                   { responses :=
                       [{ responseId := "R1", text := "t",
                          actualAuthor :=
                            { id := "P1", nickname := "Alice", isHost := true,
                              isConnected := true, joinedAt := .date 5 },
                          guessedBy := [("P1", "P1")] }],
                     penalties := [("P1", 0)] } }],
    usedPrompts := ["Q"], createdAt := .date 0, expiresAt := .date 100 }

/-- The same session with the results not yet populated. -/
def exNoResultSession : GameSession :=
  { exResultSession with
    rounds := exResultSession.rounds.map (fun r => { r with results := none }) }

/-- C6: the serialize/deserialize round trip is *not* the identity on a
session with populated `RoundResults`: `deserializeGameSession` rebuilds the
results rows by an object spread of the serialized data, so the
`actualAuthor.joinedAt` date inside the results comes back as its ISO string
instead of a revived `Date` (second conjunct); erasing the results, the very
same session round-trips to a deep-equal value (third conjunct), locating the
slip precisely in the results revival. -/
theorem serialize_roundtrip_not_identity :
    deserializeGameSession (serializeGameSession exResultSession)
        ≠ exResultSession ∧
    (deserializeGameSession (serializeGameSession exResultSession)).rounds.map
        (fun r => r.results.map (fun res => res.responses.map
          (fun rr => rr.actualAuthor.joinedAt)))
      = [some [DateVal.iso 5]] ∧
    deserializeGameSession (serializeGameSession exNoResultSession)
      = exNoResultSession := by
  refine ⟨by decide, by decide, by decide⟩

/-- Helper: when the calling player already has a response in the current
round, `submitResponse` fails without touching the store — with
`AlreadySubmitted` in the `responding` phase and with the wrong-phase error in
any other phase (the phase check precedes the duplicate scan). -/
theorem submitResponse_duplicate (store : Store) (code pid t r : String)
    (n : Nat) (s : GameSession) (round : Round)
    (hs : mapGet? store code = some s)
    (hp : mapHas s.players pid = true)
    (hround : s.rounds[s.currentRound]? = some round)
    (hdup : ((mapValues round.responses).any
      (fun x => x.playerId == pid)) = true) :
    submitResponse store code pid t r n
      = (store, .error (if s.phase = .responding
          then GameError.responseAlreadySubmitted
          else GameError.notRespondingPhase)) := by
  by_cases hph : s.phase = .responding
  · have hrg : s.rounds.get? s.currentRound = some round := by
      simpa using hround
    simp [submitResponse, hs, hp, hph, hround, hrg, hdup]
  · simp [submitResponse, hs, hp, hph]

/-- C2 (amended): a successful `submitResponse` appends exactly one `Response`
for the calling player and, in that same call, sets the phase to `guessing`
iff the resulting number of responses equals the total number of players
(disconnected included), leaving it `responding` otherwise.  A subsequent
`submitResponse` by the same player in that round fails without altering the
stored session — with `AlreadySubmitted` when the first submission left the
phase at `responding`, but with the wrong-phase error when it completed the
round, because the phase check precedes the duplicate check. -/
theorem submitResponse_records_and_transitions
    (store : Store) (code playerId responseText rid : String) (now : Nat)
    (s : GameSession) (round : Round)
    (hs : mapGet? store code = some s)
    (hp : mapHas s.players playerId = true)
    (hph : s.phase = .responding)
    (hr : s.rounds[s.currentRound]? = some round)
    (hnew : ((mapValues round.responses).any
      (fun r => r.playerId == playerId)) = false)
    (hrid : mapHas round.responses rid = false)
    (htext : (strTrim responseText).length ≠ 0) :
    ∃ s', submitResponse store code playerId responseText rid now
        = (mapSet store code s', .ok s') ∧
      s'.players = s.players ∧
      s'.currentRound = s.currentRound ∧
      s'.rounds = s.rounds.set s.currentRound
        { round with responses := round.responses ++
            [(rid, { id := rid, playerId := playerId,
                     text := strTrim responseText,
                     submittedAt := .date now })] } ∧
      s'.phase = (if round.responses.length + 1 = s.players.length
        then GamePhase.guessing else GamePhase.responding) ∧
      ∀ (t2 r2 : String) (n2 : Nat),
        submitResponse (mapSet store code s') code playerId t2 r2 n2
          = (mapSet store code s',
             .error (if s'.phase = .responding
               then GameError.responseAlreadySubmitted
               else GameError.notRespondingPhase)) := by
  have hrg : s.rounds.get? s.currentRound = some round := by
    simpa using hr
  have htxt : ((strTrim responseText).length == 0) = false := by
    simpa using htext
  have happend : mapSet round.responses rid
      { id := rid, playerId := playerId, text := strTrim responseText,
        submittedAt := .date now }
        = round.responses ++
          [(rid, { id := rid, playerId := playerId,
                   text := strTrim responseText, submittedAt := .date now })] := by
    simp [mapSet, hrid]
  refine ⟨{ s with
      rounds := s.rounds.set s.currentRound
        { round with responses := round.responses ++
            [(rid, { id := rid, playerId := playerId,
                     text := strTrim responseText,
                     submittedAt := .date now })] },
      phase := if (round.responses ++
          [(rid, ({ id := rid, playerId := playerId,
                    text := strTrim responseText,
                    submittedAt := .date now } : Response))]).length
          = s.players.length
        then GamePhase.guessing else s.phase }, ?_, rfl, rfl, rfl, ?_, ?_⟩
  · simp [submitResponse, hs, hp, hph, hr, hrg, hnew, htxt, happend]
  · simp [List.length_append, hph]
  · intro t2 r2 n2
    have hlt : s.currentRound < s.rounds.length :=
      (List.getElem?_eq_some.mp hr).1
    refine submitResponse_duplicate _ _ _ _ _ _ _
      ({ round with responses := round.responses ++
          [(rid, { id := rid, playerId := playerId,
                   text := strTrim responseText,
                   submittedAt := .date now })] })
      (mapGet?_set_self store code _) hp ?_ ?_
    · exact List.getElem?_set_eq_of_lt _ hlt
    · simp [mapValues]

/-- C2 (counterexample): in a one-player session the single response seals the
round, so the duplicate second call fails with the wrong-phase error, not
`AlreadySubmitted` as the claim states. -/
def wRound0 : Round :=
  { roundNumber := 0, prompt := "Q", responses := [], guesses := [],
    results := none }

def wSession2 : GameSession :=
  { code := "ABCDEF", hostId := "P1",
    players := [("P1", { id := "P1", nickname := "Alice", isHost := true,
                         isConnected := true, joinedAt := .date 1 })],
    currentRound := 0, phase := .responding,
    rounds := [wRound0],
    usedPrompts := ["Q"], createdAt := .date 0, expiresAt := .date 100 }

theorem submitResponse_duplicate_after_seal_counterexample :
    ((submitResponse [("ABCDEF", wSession2)] "ABCDEF" "P1" "hi" "R1" 5).2
        matches Except.ok _) = true ∧
    (submitResponse
        (submitResponse [("ABCDEF", wSession2)] "ABCDEF" "P1" "hi" "R1" 5).1
        "ABCDEF" "P1" "hi" "R2" 6).2
      = .error .notRespondingPhase ∧
    (submitResponse
        (submitResponse [("ABCDEF", wSession2)] "ABCDEF" "P1" "hi" "R1" 5).1
        "ABCDEF" "P1" "hi" "R2" 6).2
      ≠ .error .responseAlreadySubmitted := by
  refine ⟨by decide, by decide, by decide⟩

/-- Witness for `submitResponse_records_and_transitions`: a two-player session
where the first response does not seal the round, so the duplicate fails
`AlreadySubmitted`. -/
def wSession2b : GameSession :=
  { wSession2 with
    players := wSession2.players ++
      [("P2", { id := "P2", nickname := "Bob", isHost := false,
                isConnected := true, joinedAt := .date 2 })] }

theorem submitResponse_records_and_transitions_witness :
    mapGet? [("ABCDEF", wSession2b)] "ABCDEF" = some wSession2b ∧
    ∃ s', submitResponse [("ABCDEF", wSession2b)] "ABCDEF" "P1" " hi " "R1" 5
        = (mapSet [("ABCDEF", wSession2b)] "ABCDEF" s', .ok s') ∧
      s'.players = wSession2b.players ∧
      s'.currentRound = wSession2b.currentRound ∧
      s'.rounds = wSession2b.rounds.set wSession2b.currentRound
        { wRound0 with responses :=
            (wRound0).responses ++
            [("R1", { id := "R1", playerId := "P1", text := strTrim " hi ",
                      submittedAt := .date 5 })] } ∧
      s'.phase = (if (wRound0).responses.length + 1
          = wSession2b.players.length
        then GamePhase.guessing else GamePhase.responding) ∧
      ∀ (t2 r2 : String) (n2 : Nat),
        submitResponse (mapSet [("ABCDEF", wSession2b)] "ABCDEF" s') "ABCDEF"
            "P1" t2 r2 n2
          = (mapSet [("ABCDEF", wSession2b)] "ABCDEF" s',
             .error (if s'.phase = .responding
               then GameError.responseAlreadySubmitted
               else GameError.notRespondingPhase)) :=
  ⟨by decide,
    submitResponse_records_and_transitions [("ABCDEF", wSession2b)] "ABCDEF"
      "P1" " hi " "R1" 5 wSession2b wRound0
      (by decide) (by decide) (by decide) (by decide) (by decide) (by decide)
      (by decide)⟩

/-- Two responses that agree on everything except authorship. -/
def sameUpToAuthor (a b : Response) : Prop :=
  a.id = b.id ∧ a.text = b.text ∧ a.submittedAt = b.submittedAt

instance : DecidableRel sameUpToAuthor := fun a b => by
  unfold sameUpToAuthor
  infer_instance

/-- Pointwise-related lists are pointwise related (as options) at every
index. -/
theorem forall2_get?_rel {α β : Type} {R : α → β → Prop} {l1 : List α}
    {l2 : List β} (h : List.Forall₂ R l1 l2) (i : Nat) :
    (l1.get? i = none ∧ l2.get? i = none) ∨
      ∃ a b, l1.get? i = some a ∧ l2.get? i = some b ∧ R a b := by
  induction h generalizing i with
  | nil => left; simp
  | cons hR hl ih =>
    cases i with
    | zero => right; exact ⟨_, _, rfl, rfl, hR⟩
    | succ n => simpa using ih n

/-- Pointwise relatedness is preserved by `List.set` with related values. -/
theorem forall2_set {α β : Type} {R : α → β → Prop} {l1 : List α}
    {l2 : List β} (h : List.Forall₂ R l1 l2) {a : α} {b : β} (hab : R a b) :
    ∀ i : Nat, List.Forall₂ R (l1.set i a) (l2.set i b) := by
  induction h with
  | nil => intro i; simp
  | cons hR hl ih =>
    intro i
    cases i with
    | zero => exact List.Forall₂.cons hab hl
    | succ n => exact List.Forall₂.cons hR (ih n)

/-- Pointwise relatedness is preserved by swapping the same two positions. -/
theorem forall2_listSwap {α β : Type} {R : α → β → Prop} {l1 : List α}
    {l2 : List β} (h : List.Forall₂ R l1 l2) (i j : Nat) :
    List.Forall₂ R (listSwap l1 i j) (listSwap l2 i j) := by
  unfold listSwap
  rcases forall2_get?_rel h i with ⟨hi1, hi2⟩ | ⟨a, b, hi1, hi2, hab⟩ <;>
    rcases forall2_get?_rel h j with ⟨hj1, hj2⟩ | ⟨c, d, hj1, hj2, hcd⟩ <;>
      simp only [hi1, hi2, hj1, hj2]
  · exact h
  · exact h
  · exact h
  · exact forall2_set (forall2_set h hcd i) hab j

/-- Pointwise relatedness is preserved by the Fisher-Yates loop driven by the
same oracle. -/
theorem forall2_shuffleAux {α β : Type} {R : α → β → Prop} :
    ∀ (n : Nat) (rand : List Nat) (l1 : List α) (l2 : List β),
      List.Forall₂ R l1 l2 →
      List.Forall₂ R (shuffleAux l1 n rand) (shuffleAux l2 n rand) := by
  intro n
  induction n with
  | zero => intro rand l1 l2 h; exact h
  | succ m ih =>
    intro rand l1 l2 h
    cases rand with
    | nil => exact h
    | cons r rs => exact ih rs _ _ (forall2_listSwap h (m + 1) (r % (m + 2)))

/-- Pointwise relatedness is preserved by `shuffleArray` with the same
oracle. -/
theorem forall2_shuffleArray {α β : Type} {R : α → β → Prop} {l1 : List α}
    {l2 : List β} (h : List.Forall₂ R l1 l2) (rand : List Nat) :
    List.Forall₂ R (shuffleArray rand l1) (shuffleArray rand l2) := by
  unfold shuffleArray
  rw [← h.length_eq]
  cases hL : l1.length with
  | zero => exact h
  | succ n => exact forall2_shuffleAux n rand l1 l2 h

/-- Responses equal up to authorship produce the same broadcast payload. -/
theorem payload_congr {la lb : List Response}
    (h : List.Forall₂ sameUpToAuthor la lb) :
    responsesReadyPayload la = responsesReadyPayload lb := by
  induction h with
  | nil => rfl
  | cons hR hl ih =>
    simp only [responsesReadyPayload, List.map_cons, List.cons.injEq] at ih ⊢
    exact ⟨by rw [hR.1, hR.2.1], ih⟩

/-- C3: no externally exposed payload derived from the shuffled responses
contains a response author: the responses-ready payload carries only each
response id and text (by definition of `responsesReadyPayload`), hence two
rounds identical except for response authorship yield identical pre-reveal
responses-ready payloads under the same shuffle draws. -/
theorem responsesReady_independent_of_authors (r1 r2 : Round)
    (rand : List Nat)
    (h : List.Forall₂ sameUpToAuthor (mapValues r1.responses)
      (mapValues r2.responses)) :
    responsesReadyPayload (getShuffledResponses r1 rand)
      = responsesReadyPayload (getShuffledResponses r2 rand) :=
  payload_congr (forall2_shuffleArray h rand)

/-- Witness for `responsesReady_independent_of_authors`: two two-response
rounds whose authors are swapped yield the same payload. -/
def wRound3a : Round :=
  { roundNumber := 0, prompt := "Q",
    responses :=
      [("R1", { id := "R1", playerId := "P1", text := "a",
                submittedAt := .date 3 }),
       ("R2", { id := "R2", playerId := "P2", text := "b",
                submittedAt := .date 4 })],
    guesses := [], results := none }

def wRound3b : Round :=
  { wRound3a with
    responses :=
      [("R1", { id := "R1", playerId := "P2", text := "a",
                submittedAt := .date 3 }),
       ("R2", { id := "R2", playerId := "P1", text := "b",
                submittedAt := .date 4 })] }

theorem responsesReady_independent_of_authors_witness :
    List.Forall₂ sameUpToAuthor (mapValues wRound3a.responses)
        (mapValues wRound3b.responses) ∧
    responsesReadyPayload (getShuffledResponses wRound3a [1, 0])
      = responsesReadyPayload (getShuffledResponses wRound3b [1, 0]) :=
  ⟨List.Forall₂.cons (by refine ⟨rfl, rfl, rfl⟩)
      (List.Forall₂.cons (by refine ⟨rfl, rfl, rfl⟩) List.Forall₂.nil),
    responsesReady_independent_of_authors wRound3a wRound3b [1, 0]
      (List.Forall₂.cons (by refine ⟨rfl, rfl, rfl⟩)
        (List.Forall₂.cons (by refine ⟨rfl, rfl, rfl⟩) List.Forall₂.nil))⟩

/-- A successful `mapGet?` exhibits a matching entry. -/
theorem mapGet?_mem {β : Type} {m : List (String × β)} {k : String} {v : β}
    (h : mapGet? m k = some v) : (k, v) ∈ m := by
  unfold mapGet? at h
  cases hf : m.find? (fun p => p.1 == k) with
  | none => rw [hf] at h; cases h
  | some q =>
    rw [hf] at h
    have hqm := List.mem_of_find?_eq_some hf
    have hqk := List.find?_some hf
    have hk : q.1 = k := by simpa using hqk
    have hv : q.2 = v := by simpa using h
    have : q = (k, v) := by
      cases q
      simp_all
    exact this ▸ hqm

/-- An absent key looks up to `none`. -/
theorem mapGet?_eq_none_of_not_mem_keys {β : Type} {m : List (String × β)}
    {k : String} (h : k ∉ m.map Prod.fst) : mapGet? m k = none := by
  unfold mapGet?
  rw [List.find?_eq_none.mpr]
  · rfl
  · intro p hp hpk
    exact h (List.mem_map.mpr ⟨p, hp, by simpa using hpk⟩)

/-- Looking up any present key in the all-zero initial penalty map gives 0. -/
theorem mapGet?_zero_init (players : List (String × Player)) (pid : String)
    (p : Player) (hmem : (pid, p) ∈ players) :
    mapGet? (players.map (fun q => (q.1, (0 : Nat)))) pid = some 0 := by
  induction players with
  | nil => cases hmem
  | cons q rest ih =>
    rcases List.mem_cons.mp hmem with hq | hq
    · have : q.1 = pid := by rw [← hq]
      simp [mapGet?_cons, this]
    · by_cases hqk : (q.1 == pid) = true
      · simp [mapGet?_cons, hqk]
      · have hqk0 : (q.1 == pid) = false := by simpa using hqk
        simp [mapGet?_cons, hqk0]
        simpa using ih hq

/-- The penalty increment that one response contributes to one player, in the
words of the specification (1 when the player guessed this response and the
guessed author differs from the true author). -/
def guessBump (gl : List (String × PlayerGuesses)) (resp : Response)
    (pid : String) : Nat :=
  match mapGet? gl pid with
  | none => 0
  | some pg =>
    match mapGet? pg.guesses resp.id with
    | none => 0
    | some g => if g != resp.playerId then 1 else 0

/-- `specWrongGuessCount` decomposes response by response into
`guessBump`s. -/
theorem specWrongGuessCount_cons (round : Round)
    (entry : String × Response) (rest : List (String × Response))
    (pid : String) :
    specWrongGuessCount { round with responses := entry :: rest } pid
      = guessBump round.guesses entry.2 pid
        + specWrongGuessCount { round with responses := rest } pid := by
  unfold specWrongGuessCount guessBump
  simp only [List.countP_cons]
  cases h1 : mapGet? round.guesses pid with
  | none => simp [h1]
  | some pg =>
    simp only [h1]
    have key : ∀ (x : Option String),
        (if (match x with
              | none => false
              | some g => g != entry.2.playerId) = true then (1 : Nat) else 0)
          = (match x with
              | none => 0
              | some g => if (g != entry.2.playerId) = true then 1 else 0) := by
      intro x
      cases x with
      | none => simp
      | some g =>
        by_cases h3 : (g != entry.2.playerId) = true
        · simp [h3]
        · have h3' : (g != entry.2.playerId) = false := by simpa using h3
          simp [h3']
    rw [key]
    exact Nat.add_comm _ _

/-- `guessBump` through a cons cell whose key is the tracked player. -/
theorem guessBump_cons_self (gp : String × PlayerGuesses)
    (rest : List (String × PlayerGuesses)) (resp : Response) (pid : String)
    (hk : gp.1 = pid) :
    guessBump (gp :: rest) resp pid
      = (match mapGet? gp.2.guesses resp.id with
          | none => 0
          | some g => if g != resp.playerId then 1 else 0) := by
  unfold guessBump
  rw [mapGet?_cons]
  simp [hk]

/-- `guessBump` through a cons cell with a different key. -/
theorem guessBump_cons_ne (gp : String × PlayerGuesses)
    (rest : List (String × PlayerGuesses)) (resp : Response) (pid : String)
    (hk : gp.1 ≠ pid) :
    guessBump (gp :: rest) resp pid = guessBump rest resp pid := by
  unfold guessBump
  rw [mapGet?_cons]
  have hk0 : (gp.1 == pid) = false := by simpa using hk
  simp [hk0]

/-- A player absent from the guess map gets no bump. -/
theorem guessBump_of_not_mem (gl : List (String × PlayerGuesses))
    (resp : Response) (pid : String) (h : pid ∉ gl.map Prod.fst) :
    guessBump gl resp pid = 0 := by
  unfold guessBump
  rw [mapGet?_eq_none_of_not_mem_keys h]

/-- Inner-loop invariant: walking the guess map for one response adds exactly
that response bump to the tracked player penalty, provided guess-map keys are
unique and all stored guess values are non-empty strings (JS truthiness: an
empty-string guess would be skipped by `if (guess)`). -/
theorem collectGuessesFor_penalty (resp : Response) (pid : String) :
    ∀ (gl : List (String × PlayerGuesses)) (gb : List (String × String))
      (pen : List (String × Nat)) (n : Nat),
      (gl.map Prod.fst).Nodup →
      (∀ gp ∈ gl, ∀ e ∈ gp.2.guesses, e.2 ≠ "") →
      mapGet? pen pid = some n →
      mapGet? ((collectGuessesFor gl resp pen).2) pid
        = some (n + guessBump gl resp pid) ∧
      ∀ (gb0 : List (String × String)),
        (gl.foldl
          (fun acc gp =>
            match mapGet? gp.2.guesses resp.id with
            | none => acc
            | some guess =>
              if guess = "" then acc
              else
                let guessedBy' := mapSet acc.1 gp.1 guess
                let penalties' :=
                  if guess ≠ resp.playerId then
                    mapSet acc.2 gp.1 (((mapGet? acc.2 gp.1).getD 0) + 1)
                  else acc.2
                (guessedBy', penalties'))
          (gb0, pen)).2
          = (collectGuessesFor gl resp pen).2 := by
  intro gl
  induction gl with
  | nil =>
    intro gb pen n hnd hne hpen
    refine ⟨?_, fun gb0 => rfl⟩
    simpa [collectGuessesFor, guessBump, mapGet?] using hpen
  | cons gp rest ih =>
    intro gb pen n hnd hne hpen
    have hnd' : (gp.1 :: rest.map Prod.fst).Nodup := by simpa using hnd
    have hndr : (rest.map Prod.fst).Nodup := hnd'.of_cons
    have hner : ∀ gp ∈ rest, ∀ e ∈ gp.2.guesses, e.2 ≠ "" :=
      fun gp hq => hne gp (List.mem_cons_of_mem _ hq)
    -- reduce one step of the fold, for an arbitrary first component
    have hstep : ∀ (gb0 : List (String × String)),
        ((gp :: rest).foldl
          (fun acc gp =>
            match mapGet? gp.2.guesses resp.id with
            | none => acc
            | some guess =>
              if guess = "" then acc
              else
                let guessedBy' := mapSet acc.1 gp.1 guess
                let penalties' :=
                  if guess ≠ resp.playerId then
                    mapSet acc.2 gp.1 (((mapGet? acc.2 gp.1).getD 0) + 1)
                  else acc.2
                (guessedBy', penalties'))
          (gb0, pen)).2
          = (collectGuessesFor rest resp
              (match mapGet? gp.2.guesses resp.id with
               | none => pen
               | some guess =>
                 if guess = "" then pen
                 else if guess ≠ resp.playerId then
                   mapSet pen gp.1 (((mapGet? pen gp.1).getD 0) + 1)
                 else pen)).2 := by
      intro gb0
      rw [List.foldl_cons]
      cases hguess : mapGet? gp.2.guesses resp.id with
      | none =>
        simpa using (ih gb0 pen n hndr hner hpen).2 gb0
      | some guess =>
        by_cases hempty : guess = ""
        · simp only [hempty, if_pos rfl]
          simpa using (ih gb0 pen n hndr hner hpen).2 gb0
        · simp only [if_neg hempty]
          by_cases hwrong : guess ≠ resp.playerId
          · simp only [if_pos hwrong]
            have hpen2 : mapGet? (mapSet pen gp.1
                (((mapGet? pen gp.1).getD 0) + 1)) pid
                = some (if gp.1 = pid then n + 1 else n) := by
              by_cases hk : gp.1 = pid
              · rw [hk, if_pos rfl, hpen]
                simpa using mapGet?_set_self pen pid (n + 1)
              · rw [if_neg hk,
                  mapGet?_set_other pen gp.1 pid _ (fun hc => hk hc.symm)]
                exact hpen
            exact (ih (mapSet gb0 gp.1 guess) _ _ hndr hner hpen2).2 _
          · simp only [if_neg hwrong]
            exact (ih (mapSet gb0 gp.1 guess) pen n hndr hner hpen).2 _
    constructor
    · -- the penalty of `pid` after the whole walk
      show mapGet? ((collectGuessesFor (gp :: rest) resp pen).2) pid = _
      unfold collectGuessesFor
      rw [hstep []]
      cases hguess : mapGet? gp.2.guesses resp.id with
      | none =>
        by_cases hk : gp.1 = pid
        · have hnotin : pid ∉ rest.map Prod.fst :=
            hk ▸ (List.nodup_cons.mp hnd').1
          rw [guessBump_cons_self gp rest resp pid hk, hguess]
          simpa [guessBump_of_not_mem rest resp pid hnotin] using
            (ih [] pen n hndr hner hpen).1
        · rw [guessBump_cons_ne gp rest resp pid hk]
          exact (ih [] pen n hndr hner hpen).1
      | some guess =>
        have hgne : guess ≠ "" := hne gp (List.mem_cons_self _ _)
          (resp.id, guess) (mapGet?_mem hguess)
        simp only [if_neg hgne]
        by_cases hk : gp.1 = pid
        · have hnotin : pid ∉ rest.map Prod.fst :=
            hk ▸ (List.nodup_cons.mp hnd').1
          have hrest0 := guessBump_of_not_mem rest resp pid hnotin
          rw [guessBump_cons_self gp rest resp pid hk, hguess]
          by_cases hwrong : guess ≠ resp.playerId
          · have hw : (guess != resp.playerId) = true := by simpa using hwrong
            have hpen2 : mapGet? (mapSet pen gp.1
                (((mapGet? pen gp.1).getD 0) + 1)) pid = some (n + 1) := by
              rw [hk, hpen]
              simpa using mapGet?_set_self pen pid (n + 1)
            have := (ih [] _ (n + 1) hndr hner hpen2).1
            rw [if_pos hwrong]
            simpa [hw, hrest0] using this
          · have heq : guess = resp.playerId := not_not.mp hwrong
            have hw : (guess != resp.playerId) = false := by simpa using heq
            have := (ih [] pen n hndr hner hpen).1
            rw [if_neg hwrong]
            simpa [hw, hrest0] using this
        · rw [guessBump_cons_ne gp rest resp pid hk]
          by_cases hwrong : guess ≠ resp.playerId
          · have hpen2 : mapGet? (mapSet pen gp.1
                (((mapGet? pen gp.1).getD 0) + 1)) pid = some n := by
              rw [mapGet?_set_other pen gp.1 pid _ (fun hc => hk hc.symm)]
              exact hpen
            have := (ih [] _ n hndr hner hpen2).1
            rw [if_pos hwrong]
            exact this
          · have := (ih [] pen n hndr hner hpen).1
            rw [if_neg hwrong]
            exact this
    · -- the first fold component does not influence the final penalties
      intro gb0
      rw [hstep gb0]
      have h0 : (collectGuessesFor (gp :: rest) resp pen).2
          = (collectGuessesFor rest resp
              (match mapGet? gp.2.guesses resp.id with
               | none => pen
               | some guess =>
                 if guess = "" then pen
                 else if guess ≠ resp.playerId then
                   mapSet pen gp.1 (((mapGet? pen gp.1).getD 0) + 1)
                 else pen)).2 := by
        unfold collectGuessesFor
        exact hstep []
      exact h0.symm

/-- Outer-loop invariant of `calculateResults`: walking the responses adds the
per-response bumps, i.e. the specification count, to the tracked player
penalty. -/
theorem calcFold_penalty (session : GameSession) (round : Round) (pid : String)
    (hnd : (round.guesses.map Prod.fst).Nodup)
    (hne : ∀ gp ∈ round.guesses, ∀ e ∈ gp.2.guesses, e.2 ≠ "") :
    ∀ (entries : List (String × Response)) (acc1 : List ResultResponse)
      (pen : List (String × Nat)) (n : Nat),
      mapGet? pen pid = some n →
      mapGet? ((entries.foldl
        (fun (acc : List ResultResponse × List (String × Nat)) entry =>
          let response := entry.2
          let collected := collectGuessesFor round.guesses response acc.2
          (acc.1 ++ [{ responseId := response.id, text := response.text,
                       actualAuthor :=
                         (mapGet? session.players response.playerId).getD
                           defaultPlayer,
                       guessedBy := collected.1 }],
           collected.2))
        (acc1, pen)).2) pid
        = some (n + specWrongGuessCount { round with responses := entries }
            pid) := by
  intro entries
  induction entries with
  | nil =>
    intro acc1 pen n hpen
    simpa [specWrongGuessCount] using hpen
  | cons entry rest ih =>
    intro acc1 pen n hpen
    rw [List.foldl_cons]
    have hcol := (collectGuessesFor_penalty entry.2 pid round.guesses [] pen n
      hnd hne hpen).1
    have hrec := ih (acc1 ++
        [{ responseId := entry.2.id, text := entry.2.text,
           actualAuthor := (mapGet? session.players entry.2.playerId).getD
             defaultPlayer,
           guessedBy := (collectGuessesFor round.guesses entry.2 pen).1 }])
      ((collectGuessesFor round.guesses entry.2 pen).2)
      (n + guessBump round.guesses entry.2 pid) hcol
    rw [specWrongGuessCount_cons]
    simpa [Nat.add_assoc] using hrec

/-- C1: whenever a round is sealed (both `submitGuesses` and
`handlePlayerDisconnect` seal via `calculateResults`), the penalties map has
an entry for every session player, equal to the number of responses for which
that player submitted a guess naming an author other than the true one (and 0
for a player who submitted no guesses).  The guess-map keys are unique (JS
`Map`) and every stored guess value is a non-empty player id (enforced by
`submitGuesses` validation). -/
theorem calculateResults_penalty_spec (session : GameSession) (round : Round)
    (hnd : (round.guesses.map Prod.fst).Nodup)
    (hne : ∀ gp ∈ round.guesses, ∀ e ∈ gp.2.guesses, e.2 ≠ "") :
    ∀ pid p, (pid, p) ∈ session.players →
      mapGet? (calculateResults session round).penalties pid
        = some (specWrongGuessCount round pid) := by
  intro pid p hmem
  have h0 := mapGet?_zero_init session.players pid p hmem
  have hmain := calcFold_penalty session round pid hnd hne round.responses []
    (session.players.map (fun q => (q.1, (0 : Nat)))) 0 h0
  unfold calculateResults
  simpa using hmain

/-- Witness for `calculateResults_penalty_spec`: the specification example —
three players each author one response, `P1` guesses wrong, wrong, correct
and is penalized 2; `P2` submitted no guesses and is penalized 0. -/
def wSession1 : GameSession :=
  { code := "ABCDEF", hostId := "P1",
    players :=
      [("P1", { id := "P1", nickname := "Alice", isHost := true,
                isConnected := true, joinedAt := .date 1 }),
       ("P2", { id := "P2", nickname := "Bob", isHost := false,
                isConnected := true, joinedAt := .date 2 }),
       ("P3", { id := "P3", nickname := "Cara", isHost := false,
                isConnected := true, joinedAt := .date 3 })],
    currentRound := 0, phase := .guessing,
    rounds := [], usedPrompts := ["Q"], createdAt := .date 0,
    expiresAt := .date 100 }

def wRound1 : Round :=
  { roundNumber := 0, prompt := "Q",
    responses :=
      [("R1", { id := "R1", playerId := "P1", text := "a",
                submittedAt := .date 4 }),
       ("R2", { id := "R2", playerId := "P2", text := "b",
                submittedAt := .date 5 }),
       ("R3", { id := "R3", playerId := "P3", text := "c",
                submittedAt := .date 6 })],
    guesses :=
      [("P1", { playerId := "P1",
                guesses := [("R1", "P2"), ("R2", "P1"), ("R3", "P3")],
                submittedAt := .date 7 })],
    results := none }

theorem calculateResults_penalty_spec_witness :
    mapGet? (calculateResults wSession1 wRound1).penalties "P1" = some 2 ∧
    mapGet? (calculateResults wSession1 wRound1).penalties "P2" = some 0 :=
  ⟨(calculateResults_penalty_spec wSession1 wRound1 (by decide) (by decide)
      "P1" { id := "P1", nickname := "Alice", isHost := true,
             isConnected := true, joinedAt := .date 1 } (by decide)).trans
    (by decide),
   (calculateResults_penalty_spec wSession1 wRound1 (by decide) (by decide)
      "P2" { id := "P2", nickname := "Bob", isHost := false,
             isConnected := true, joinedAt := .date 2 } (by decide)).trans
    (by decide)⟩

/-- The head of `sortByJoinedAt` is an element with minimal `joinedAt`. -/
theorem sortByJoinedAt_head_min (l : List Player) (h : Player)
    (rest : List Player) (heq : sortByJoinedAt l = h :: rest) :
    h ∈ l ∧ ∀ p ∈ l, h.joinedAt.ms ≤ p.joinedAt.ms := by
  haveI : IsTotal Player (fun a b : Player => a.joinedAt.ms ≤ b.joinedAt.ms) :=
    ⟨fun a b => Nat.le_total _ _⟩
  haveI : IsTrans Player (fun a b : Player => a.joinedAt.ms ≤ b.joinedAt.ms) :=
    ⟨fun a b c => Nat.le_trans⟩
  have hperm := List.perm_insertionSort
    (fun a b : Player => a.joinedAt.ms ≤ b.joinedAt.ms) l
  have hsorted := List.sorted_insertionSort
    (fun a b : Player => a.joinedAt.ms ≤ b.joinedAt.ms) l
  unfold sortByJoinedAt at heq
  rw [heq] at hperm hsorted
  refine ⟨hperm.subset (List.mem_cons_self h rest), ?_⟩
  intro p hp
  rcases List.mem_cons.mp (hperm.symm.subset hp) with hph | hpr
  · rw [hph]
  · exact (List.sorted_cons.mp hsorted).1 p hpr

/-- C4: when the current host disconnects, if no other connected player
remains the host id stays unchanged; otherwise the other connected player
with the least `joinedAt` (the head of the sorted candidate list) is promoted
— `isHost := true`, `session.hostId := their id` — and the disconnecting
player is demoted to `isHost := false`. -/
theorem handleDisconnect_host_failover
    (store : Store) (code pid : String) (s : GameSession) (player : Player)
    (hs : mapGet? store code = some s)
    (hp : mapGet? s.players pid = some player)
    (hhost : player.isHost = true) (hid : s.hostId = pid) :
    ∃ res, (handlePlayerDisconnect store code pid).2 = .ok res ∧
      (((mapValues (mapSet s.players pid
            { player with isConnected := false })).filter
          (fun p => p.id != pid && p.isConnected)) = [] →
        res.session.hostId = s.hostId ∧ res.newHost = none) ∧
      (∀ q rest,
        sortByJoinedAt ((mapValues (mapSet s.players pid
            { player with isConnected := false })).filter
          (fun p => p.id != pid && p.isConnected)) = q :: rest →
        res.newHost = some { q with isHost := true } ∧
        res.session.hostId = q.id ∧
        q.isConnected = true ∧ q.id ≠ pid ∧
        (∀ p2 ∈ (mapValues (mapSet s.players pid
              { player with isConnected := false })).filter
            (fun p => p.id != pid && p.isConnected),
          q.joinedAt.ms ≤ p2.joinedAt.ms) ∧
        mapGet? res.session.players pid
          = some { player with isConnected := false, isHost := false }) := by
  refine ⟨(applyDisconnect s pid player), ?_, ?_, ?_⟩
  · simp [handlePlayerDisconnect, hs, hp]
  · intro hempty
    constructor
    · simp only [applyDisconnect, discPlayers]
      rw [if_pos (show player.isHost = true ∧ s.hostId = pid from
        ⟨hhost, hid⟩), hempty]
      simp [sortByJoinedAt]
    · simp only [applyDisconnect, discPlayers]
      rw [if_pos (show player.isHost = true ∧ s.hostId = pid from
        ⟨hhost, hid⟩), hempty]
      simp [sortByJoinedAt]
  · intro q rest heq
    have hmin := sortByJoinedAt_head_min _ q rest heq
    have hqf := List.mem_filter.mp hmin.1
    have hqc : q.isConnected = true := by
      have := hqf.2
      simp only [Bool.and_eq_true] at this
      exact this.2
    have hqid : q.id ≠ pid := by
      have := hqf.2
      simp only [Bool.and_eq_true, bne_iff_ne] at this
      exact this.1
    refine ⟨?_, ?_, hqc, hqid, hmin.2, ?_⟩
    · simp only [applyDisconnect, discPlayers]
      rw [if_pos (show player.isHost = true ∧ s.hostId = pid from
        ⟨hhost, hid⟩), heq]
    · simp only [applyDisconnect, discPlayers]
      rw [if_pos (show player.isHost = true ∧ s.hostId = pid from
        ⟨hhost, hid⟩), heq]
    · simp only [applyDisconnect, discPlayers]
      rw [if_pos (show player.isHost = true ∧ s.hostId = pid from
        ⟨hhost, hid⟩), heq]
      exact mapGet?_set_self _ pid _

/-- Witness for `handleDisconnect_host_failover`: host `H` (joined at 1)
disconnects; of the two other connected players `A` (joined at 2) and `B`
(joined at 3), `A` is promoted. -/
def wPlayerH : Player :=
  { id := "H", nickname := "Hope", isHost := true, isConnected := true,
    joinedAt := .date 1 }

def wPlayerA : Player :=
  { id := "A", nickname := "Ann", isHost := false, isConnected := true,
    joinedAt := .date 2 }

def wPlayerB : Player :=
  { id := "B", nickname := "Ben", isHost := false, isConnected := true,
    joinedAt := .date 3 }

def wSession4 : GameSession :=
  { code := "ABCDEF", hostId := "H",
    players := [("H", wPlayerH), ("A", wPlayerA), ("B", wPlayerB)],
    currentRound := 0, phase := .lobby, rounds := [], usedPrompts := [],
    createdAt := .date 0, expiresAt := .date 100 }

theorem handleDisconnect_host_failover_witness :
    ∃ res, (handlePlayerDisconnect [("ABCDEF", wSession4)] "ABCDEF" "H").2
        = .ok res ∧
      res.newHost = some { wPlayerA with isHost := true } ∧
      res.session.hostId = "A" := by
  obtain ⟨res, hok, _, hcons⟩ := handleDisconnect_host_failover
    [("ABCDEF", wSession4)] "ABCDEF" "H" wSession4 wPlayerH
    (by decide) (by decide) (by decide) (by decide)
  obtain ⟨hnew, hhid, _, _, _, _⟩ := hcons wPlayerA [wPlayerB] (by decide)
  exact ⟨res, hok, hnew, hhid⟩

/-- An in-bounds `getD` returns an element of the list. -/
theorem getD_mem_of_lt {l : List String} {i : Nat} (h : i < l.length)
    (d : String) : l.getD i d ∈ l := by
  induction l generalizing i with
  | nil => cases h
  | cons a t ih =>
    cases i with
    | zero => simp [List.getD]
    | succ n =>
      have hlt : n < t.length := Nat.lt_of_succ_lt_succ (by simpa using h)
      rw [List.getD_cons_succ]
      exact List.mem_cons_of_mem a (ih hlt)

/-- The prompt pool is non-empty and repeat-free (checked computationally,
matching the repository test expectations on `PROMPTS`). -/
theorem PROMPTS_nodup : PROMPTS.Nodup := by decide

theorem PROMPTS_length_pos : 0 < PROMPTS.length := by decide

/-- `selectRandomPrompt` always returns a pool prompt, whatever the draw and
the used list. -/
theorem selectRandomPrompt_mem (rand : Nat) (used : List String) :
    selectRandomPrompt rand used ∈ PROMPTS := by
  unfold selectRandomPrompt
  by_cases h : 0 < (PROMPTS.filter (fun p => !used.contains p)).length
  · simp only [h, if_pos]
    have hlt : rand % (PROMPTS.filter (fun p => !used.contains p)).length
        < (PROMPTS.filter (fun p => !used.contains p)).length :=
      Nat.mod_lt _ h
    exact List.mem_of_mem_filter (getD_mem_of_lt hlt "")
  · simp only [h, if_neg, if_false]
    exact getD_mem_of_lt (Nat.mod_lt _ PROMPTS_length_pos) ""

/-- While an unused prompt remains, `selectRandomPrompt` never returns a used
one. -/
theorem selectRandomPrompt_not_used (rand : Nat) (used : List String)
    (h : ∃ p ∈ PROMPTS, p ∉ used) :
    selectRandomPrompt rand used ∉ used ∧
      selectRandomPrompt rand used ∈ PROMPTS := by
  obtain ⟨p0, hp0, hp0u⟩ := h
  have hpf : p0 ∈ PROMPTS.filter (fun p => !used.contains p) :=
    List.mem_filter.mpr ⟨hp0, by simpa using hp0u⟩
  have hpos : 0 < (PROMPTS.filter (fun p => !used.contains p)).length :=
    List.length_pos.mpr (List.ne_nil_of_mem hpf)
  have hlt : rand % (PROMPTS.filter (fun p => !used.contains p)).length
      < (PROMPTS.filter (fun p => !used.contains p)).length :=
    Nat.mod_lt _ hpos
  have hsel : selectRandomPrompt rand used
      ∈ PROMPTS.filter (fun p => !used.contains p) := by
    unfold selectRandomPrompt
    simp only [hpos, if_pos]
    exact getD_mem_of_lt hlt ""
  have hmf := List.mem_filter.mp hsel
  refine ⟨?_, hmf.1⟩
  have := hmf.2
  simpa using this

/-- N successive automatic selections, each appended to the used list, stay
repeat-free as long as the pool is not exhausted. -/
theorem autoSelectRun_nodup :
    ∀ (rands : List Nat) (used : List String),
      used.Nodup → used ⊆ PROMPTS →
      used.length + rands.length ≤ PROMPTS.length →
      (autoSelectRun used rands).Nodup ∧
        autoSelectRun used rands ⊆ PROMPTS ∧
        (autoSelectRun used rands).length = used.length + rands.length := by
  intro rands
  induction rands with
  | nil =>
    intro used h1 h2 h3
    exact ⟨h1, h2, by simp [autoSelectRun]⟩
  | cons r rs ih =>
    intro used h1 h2 h3
    have hex : ∃ p ∈ PROMPTS, p ∉ used := by
      by_contra hno
      push_neg at hno
      have hsub : PROMPTS ⊆ used := fun p hp => hno p hp
      have hlen := (PROMPTS_nodup.subperm hsub).length_le
      simp only [List.length_cons] at h3
      omega
    obtain ⟨hnu, hmem⟩ := selectRandomPrompt_not_used r used hex
    have h1' : (used ++ [selectRandomPrompt r used]).Nodup := by
      rw [List.nodup_append]
      exact ⟨h1, List.nodup_singleton _,
        fun a ha hb => by
          rw [List.mem_singleton] at hb
          exact hnu (hb ▸ ha)⟩
    have h2' : used ++ [selectRandomPrompt r used] ⊆ PROMPTS := by
      intro a ha
      rcases List.mem_append.mp ha with ha | ha
      · exact h2 ha
      · rw [List.mem_singleton] at ha
        exact ha ▸ hmem
    have h3' : (used ++ [selectRandomPrompt r used]).length + rs.length
        ≤ PROMPTS.length := by
      simp only [List.length_append, List.length_singleton,
        List.length_cons, List.length_nil] at h3 ⊢
      omega
    have := ih (used ++ [selectRandomPrompt r used]) h1' h2' h3'
    refine ⟨this.1, this.2.1, ?_⟩
    rw [show autoSelectRun used (r :: rs)
      = autoSelectRun (used ++ [selectRandomPrompt r used]) rs from rfl,
      this.2.2]
    simp only [List.length_append, List.length_singleton, List.length_cons,
      List.length_nil]
    omega

/-- The prompt actually used by `startRound`: the trimmed caller prompt when
one is supplied and non-blank, otherwise the automatic selection. -/
def startPrompt (prompt : Option String) (rand : Nat)
    (used : List String) : String :=
  match prompt with
  | some p => if 0 < (strTrim p).length then strTrim p
              else selectRandomPrompt rand used
  | none => selectRandomPrompt rand used

/-- C7: a host `startRound` in the `lobby` or `reveal` phase appends a round
numbered by the previous round count, points `currentRound` at it, moves to
`responding`, and appends the selected prompt to `usedPrompts`; automatic
selection avoids used prompts while any pool prompt is unused (so N ≤ pool
size successive automatic selections are repeat-free) and still draws from
the pool once every prompt has been used. -/
theorem startRound_prompt_selection
    (store : Store) (code hostId : String) (prompt : Option String)
    (rand : Nat) (s : GameSession)
    (hs : mapGet? store code = some s)
    (hh : s.hostId = hostId)
    (hph : s.phase = .lobby ∨ s.phase = .reveal) :
    ∃ s', startRound store code hostId prompt rand
        = (mapSet store code s', .ok s') ∧
      s'.rounds = s.rounds ++ [({ roundNumber := s.rounds.length,
                                  prompt :=
                                    startPrompt prompt rand s.usedPrompts,
                                  responses := [], guesses := [],
                                  results := none } : Round)] ∧
      s'.currentRound = s.rounds.length ∧
      s'.phase = .responding ∧
      s'.usedPrompts = s.usedPrompts ++ [startPrompt prompt rand s.usedPrompts] ∧
      ((∃ q ∈ PROMPTS, q ∉ s.usedPrompts) → ∀ r2 : Nat,
        selectRandomPrompt r2 s.usedPrompts ∉ s.usedPrompts ∧
        selectRandomPrompt r2 s.usedPrompts ∈ PROMPTS) ∧
      (∀ r2 : Nat, selectRandomPrompt r2 s.usedPrompts ∈ PROMPTS) ∧
      (∀ rands : List Nat, s.usedPrompts.Nodup → s.usedPrompts ⊆ PROMPTS →
        s.usedPrompts.length + rands.length ≤ PROMPTS.length →
        (autoSelectRun s.usedPrompts rands).Nodup ∧
        (autoSelectRun s.usedPrompts rands).length
          = s.usedPrompts.length + rands.length) := by
  have hcond : ¬(s.phase ≠ .lobby ∧ s.phase ≠ .reveal) := by
    rcases hph with h | h <;> simp [h]
  refine ⟨{ s with
      rounds := s.rounds ++ [({ roundNumber := s.rounds.length,
                                prompt :=
                                  startPrompt prompt rand s.usedPrompts,
                                responses := [], guesses := [],
                                results := none } : Round)],
      currentRound := s.rounds.length,
      phase := .responding,
      usedPrompts := s.usedPrompts
        ++ [startPrompt prompt rand s.usedPrompts] }, ?_, rfl, rfl, rfl, rfl,
    ?_, ?_, ?_⟩
  · cases prompt with
    | none => simp [startRound, hs, hh, hcond, startPrompt]
    | some p =>
      by_cases htr : 0 < (strTrim p).length
      · simp [startRound, hs, hh, hcond, startPrompt, htr]
      · simp [startRound, hs, hh, hcond, startPrompt, htr]
  · exact fun hex r2 => selectRandomPrompt_not_used r2 s.usedPrompts hex
  · exact fun r2 => selectRandomPrompt_mem r2 s.usedPrompts
  · intro rands h1 h2 h3
    exact ⟨(autoSelectRun_nodup rands s.usedPrompts h1 h2 h3).1,
      (autoSelectRun_nodup rands s.usedPrompts h1 h2 h3).2.2⟩

/-- Witness for `startRound_prompt_selection` at a concrete lobby session. -/
def wSession7 : GameSession :=
  { code := "ABCDEF", hostId := "P1",
    players := [("P1", { id := "P1", nickname := "Alice", isHost := true,
                         isConnected := true, joinedAt := .date 1 })],
    currentRound := 0, phase := .lobby, rounds := [], usedPrompts := [],
    createdAt := .date 0, expiresAt := .date 100 }

theorem startRound_prompt_selection_witness :
    mapGet? [("ABCDEF", wSession7)] "ABCDEF" = some wSession7 ∧
    (∃ s', startRound [("ABCDEF", wSession7)] "ABCDEF" "P1" none 3
        = (mapSet [("ABCDEF", wSession7)] "ABCDEF" s', .ok s') ∧
      s'.rounds = wSession7.rounds
          ++ [({ roundNumber := wSession7.rounds.length,
                 prompt := startPrompt none 3 wSession7.usedPrompts,
                 responses := [], guesses := [],
                 results := none } : Round)] ∧
      s'.currentRound = wSession7.rounds.length ∧
      s'.phase = .responding ∧
      s'.usedPrompts = wSession7.usedPrompts
          ++ [startPrompt none 3 wSession7.usedPrompts] ∧
      ((∃ q ∈ PROMPTS, q ∉ wSession7.usedPrompts) → ∀ r2 : Nat,
        selectRandomPrompt r2 wSession7.usedPrompts ∉ wSession7.usedPrompts ∧
        selectRandomPrompt r2 wSession7.usedPrompts ∈ PROMPTS) ∧
      (∀ r2 : Nat, selectRandomPrompt r2 wSession7.usedPrompts ∈ PROMPTS) ∧
      (∀ rands : List Nat, wSession7.usedPrompts.Nodup →
        wSession7.usedPrompts ⊆ PROMPTS →
        wSession7.usedPrompts.length + rands.length ≤ PROMPTS.length →
        (autoSelectRun wSession7.usedPrompts rands).Nodup ∧
        (autoSelectRun wSession7.usedPrompts rands).length
          = wSession7.usedPrompts.length + rands.length)) :=
  ⟨by decide,
    startRound_prompt_selection [("ABCDEF", wSession7)] "ABCDEF" "P1" none 3
      wSession7 (by decide) (by decide) (Or.inl (by decide))⟩

/-- `List.get?` after `List.set` at the same in-bounds index. -/
theorem get?_set_self {α : Type} (l : List α) (i : Nat) (a : α)
    (h : i < l.length) : (l.set i a).get? i = some a := by
  rw [List.get?_eq_getElem?]
  exact List.getElem?_set_eq_of_lt a h

/-- Re-running the player-map step of a disconnect on its own output changes
neither the player map nor the host id. -/
theorem discPlayers_stable (players : List (String × Player))
    (hostId pid : String) (player : Player) :
    ∃ pd, mapGet? (discPlayers players hostId pid player).1 pid = some pd ∧
      (discPlayers (discPlayers players hostId pid player).1
          (discPlayers players hostId pid player).2.1 pid pd).1
        = (discPlayers players hostId pid player).1 ∧
      (discPlayers (discPlayers players hostId pid player).1
          (discPlayers players hostId pid player).2.1 pid pd).2.1
        = (discPlayers players hostId pid player).2.1 := by
  by_cases hcond : player.isHost = true ∧ hostId = pid
  · rcases heq : sortByJoinedAt ((mapValues
        (mapSet players pid { player with isConnected := false })).filter
        (fun p => p.id != pid && p.isConnected)) with _ | ⟨q, tail⟩
    · have h1 : discPlayers players hostId pid player
          = (mapSet players pid { player with isConnected := false },
             hostId, none) := by
        simp only [discPlayers]
        rw [if_pos hcond, heq]
      refine ⟨{ player with isConnected := false }, ?_, ?_, ?_⟩
      · rw [h1]
        exact mapGet?_set_self _ _ _
      · rw [h1]
        simp only [discPlayers]
        rw [if_pos hcond, mapSet_set_same, heq]
      · rw [h1]
        simp only [discPlayers]
        rw [if_pos hcond, mapSet_set_same, heq]
    · have h1 : discPlayers players hostId pid player
          = (mapSet (mapSet (mapSet players pid
                { player with isConnected := false }) q.id
                { q with isHost := true }) pid
              { player with isConnected := false, isHost := false },
             q.id, some { q with isHost := true }) := by
        simp only [discPlayers]
        rw [if_pos hcond, heq]
      refine ⟨{ player with isConnected := false, isHost := false }, ?_, ?_,
        ?_⟩
      · rw [h1]
        exact mapGet?_set_self _ _ _
      · rw [h1]
        simp only [discPlayers]
        rw [if_neg (show ¬(false = true ∧ q.id = pid) by simp),
          mapSet_set_same]
      · rw [h1]
        simp only [discPlayers]
        rw [if_neg (show ¬(false = true ∧ q.id = pid) by simp)]
  · have h1 : discPlayers players hostId pid player
        = (mapSet players pid { player with isConnected := false },
           hostId, none) := by
      simp only [discPlayers]
      rw [if_neg hcond]
    refine ⟨{ player with isConnected := false }, ?_, ?_, ?_⟩
    · rw [h1]
      exact mapGet?_set_self _ _ _
    · rw [h1]
      simp only [discPlayers]
      rw [if_neg hcond, mapSet_set_same]
    · rw [h1]
      simp only [discPlayers]
      rw [if_neg hcond]

/-- Re-running the auto-advance step of a disconnect on its own output (same
player map, same host id) changes nothing and reports no phase change. -/
theorem discAdvance_stable (p2 : List (String × Player)) (h2 : String)
    (s : GameSession) :
    discAdvance p2 h2
        { s with players := p2, hostId := h2,
                 rounds := (discAdvance p2 h2 s).1,
                 phase := (discAdvance p2 h2 s).2.1 }
      = ((discAdvance p2 h2 s).1, (discAdvance p2 h2 s).2.1, false) := by
  by_cases hcc : (((mapValues p2).filter (fun p => p.isConnected)).map
      (fun p => p.id)).length = 0
  · have ha : discAdvance p2 h2 s = (s.rounds, s.phase, false) := by
      simp only [discAdvance]
      rw [if_pos hcc]
    rw [ha]
    simp only [discAdvance]
    try dsimp only
    rw [if_pos hcc]
  · cases hr : s.rounds.get? s.currentRound with
    | none =>
      have ha : discAdvance p2 h2 s = (s.rounds, s.phase, false) := by
        simp only [discAdvance]
        rw [if_neg hcc, hr]
      rw [ha]
      simp only [discAdvance]
      try dsimp only
      rw [if_neg hcc, hr]
    | some round =>
      have hlt : s.currentRound < s.rounds.length := by
        have hg : s.rounds[s.currentRound]? = some round := by
          rwa [List.get?_eq_getElem?] at hr
        exact (List.getElem?_eq_some.mp hg).1
      by_cases hc1 : s.phase = GamePhase.responding ∧
          ((mapValues round.responses).filter
            (fun r => (((mapValues p2).filter (fun p => p.isConnected)).map
              (fun p => p.id)).contains r.playerId)).length
            = (((mapValues p2).filter (fun p => p.isConnected)).map
              (fun p => p.id)).length
      · by_cases hx : ((round.guesses.map (fun g => g.1)).filter
            (fun q => (((mapValues p2).filter (fun p => p.isConnected)).map
              (fun p => p.id)).contains q)).length
            = (((mapValues p2).filter (fun p => p.isConnected)).map
              (fun p => p.id)).length
        · -- the first run cascaded to reveal; the second run sees `reveal`
          have ha : discAdvance p2 h2 s
              = (s.rounds.set s.currentRound
                  { round with results := some (calculateResults
                      { s with players := p2, hostId := h2 } round) },
                 GamePhase.reveal, true) := by
            simp only [discAdvance]
            rw [if_neg hcc, hr]
            try dsimp only
            rw [if_pos hc1]
            try dsimp only
            rw [if_pos (show GamePhase.guessing = GamePhase.guessing ∧
              ((round.guesses.map (fun g => g.1)).filter
                (fun q => (((mapValues p2).filter
                  (fun p => p.isConnected)).map
                  (fun p => p.id)).contains q)).length
              = (((mapValues p2).filter (fun p => p.isConnected)).map
                (fun p => p.id)).length from ⟨rfl, hx⟩)]
          rw [ha]
          simp only [discAdvance]
          try dsimp only
          rw [if_neg hcc, get?_set_self _ _ _ hlt]
          try dsimp only
          rw [if_neg (show ¬(GamePhase.reveal = GamePhase.responding ∧
            ((mapValues round.responses).filter
              (fun r => (((mapValues p2).filter (fun p => p.isConnected)).map
                (fun p => p.id)).contains r.playerId)).length
            = (((mapValues p2).filter (fun p => p.isConnected)).map
              (fun p => p.id)).length) from fun hcon => by cases hcon.1)]
          try dsimp only
          rw [if_neg (show ¬(GamePhase.reveal = GamePhase.guessing ∧
            ((round.guesses.map (fun g => g.1)).filter
              (fun q => (((mapValues p2).filter (fun p => p.isConnected)).map
                (fun p => p.id)).contains q)).length
            = (((mapValues p2).filter (fun p => p.isConnected)).map
              (fun p => p.id)).length) from fun hcon => by cases hcon.1)]
        · -- advanced to guessing only; the second run sees `guessing` and
          -- the guess condition is still false
          have ha : discAdvance p2 h2 s = (s.rounds, GamePhase.guessing,
              true) := by
            simp only [discAdvance]
            rw [if_neg hcc, hr]
            try dsimp only
            rw [if_pos hc1]
            try dsimp only
            rw [if_neg (show ¬(GamePhase.guessing = GamePhase.guessing ∧
              ((round.guesses.map (fun g => g.1)).filter
                (fun q => (((mapValues p2).filter
                  (fun p => p.isConnected)).map
                  (fun p => p.id)).contains q)).length
              = (((mapValues p2).filter (fun p => p.isConnected)).map
                (fun p => p.id)).length) from fun hcon => hx hcon.2)]
          rw [ha]
          simp only [discAdvance]
          try dsimp only
          rw [if_neg hcc, hr]
          try dsimp only
          rw [if_neg (show ¬(GamePhase.guessing = GamePhase.responding ∧
            ((mapValues round.responses).filter
              (fun r => (((mapValues p2).filter (fun p => p.isConnected)).map
                (fun p => p.id)).contains r.playerId)).length
            = (((mapValues p2).filter (fun p => p.isConnected)).map
              (fun p => p.id)).length) from fun hcon => by cases hcon.1)]
          try dsimp only
          rw [if_neg (show ¬(GamePhase.guessing = GamePhase.guessing ∧
            ((round.guesses.map (fun g => g.1)).filter
              (fun q => (((mapValues p2).filter (fun p => p.isConnected)).map
                (fun p => p.id)).contains q)).length
            = (((mapValues p2).filter (fun p => p.isConnected)).map
              (fun p => p.id)).length) from fun hcon => hx hcon.2)]
      · by_cases hx2 : s.phase = GamePhase.guessing ∧
            ((round.guesses.map (fun g => g.1)).filter
              (fun q => (((mapValues p2).filter (fun p => p.isConnected)).map
                (fun p => p.id)).contains q)).length
            = (((mapValues p2).filter (fun p => p.isConnected)).map
              (fun p => p.id)).length
        · -- sealed from `guessing`; the second run sees `reveal`
          have ha : discAdvance p2 h2 s
              = (s.rounds.set s.currentRound
                  { round with results := some (calculateResults
                      { s with players := p2, hostId := h2 } round) },
                 GamePhase.reveal, true) := by
            simp only [discAdvance]
            rw [if_neg hcc, hr]
            try dsimp only
            rw [if_neg hc1]
            try dsimp only
            rw [if_pos hx2]
          rw [ha]
          simp only [discAdvance]
          try dsimp only
          rw [if_neg hcc, get?_set_self _ _ _ hlt]
          try dsimp only
          rw [if_neg (show ¬(GamePhase.reveal = GamePhase.responding ∧
            ((mapValues round.responses).filter
              (fun r => (((mapValues p2).filter (fun p => p.isConnected)).map
                (fun p => p.id)).contains r.playerId)).length
            = (((mapValues p2).filter (fun p => p.isConnected)).map
              (fun p => p.id)).length) from fun hcon => by cases hcon.1)]
          try dsimp only
          rw [if_neg (show ¬(GamePhase.reveal = GamePhase.guessing ∧
            ((round.guesses.map (fun g => g.1)).filter
              (fun q => (((mapValues p2).filter (fun p => p.isConnected)).map
                (fun p => p.id)).contains q)).length
            = (((mapValues p2).filter (fun p => p.isConnected)).map
              (fun p => p.id)).length) from fun hcon => by cases hcon.1)]
        · -- no transition fired; the second run changes nothing either
          have ha : discAdvance p2 h2 s = (s.rounds, s.phase, false) := by
            simp only [discAdvance]
            rw [if_neg hcc, hr]
            try dsimp only
            rw [if_neg hc1]
            try dsimp only
            rw [if_neg hx2]
          rw [ha]
          simp only [discAdvance]
          try dsimp only
          rw [if_neg hcc, hr]
          try dsimp only
          rw [if_neg hc1]
          try dsimp only
          rw [if_neg hx2]

/-- C8: the disconnect reconciliation is idempotent.  Re-running
`handlePlayerDisconnect` for the same (now already disconnected) player
returns the very same session, reports `phaseChanged = false`, and leaves the
store unchanged: the phase is not advanced a second time and an
already-computed `RoundResults` is never recomputed or overwritten. -/
theorem handleDisconnect_idempotent (store : Store) (code pid : String)
    (s : GameSession) (player : Player)
    (hs : mapGet? store code = some s)
    (hp : mapGet? s.players pid = some player) :
    ∃ o1 o2, (handlePlayerDisconnect store code pid).2 = .ok o1 ∧
      (handlePlayerDisconnect (handlePlayerDisconnect store code pid).1 code
          pid).2 = .ok o2 ∧
      o2.session = o1.session ∧ o2.phaseChanged = false ∧
      (handlePlayerDisconnect (handlePlayerDisconnect store code pid).1 code
          pid).1 = (handlePlayerDisconnect store code pid).1 := by
  obtain ⟨pd, hpd, hst1, hst2⟩ := discPlayers_stable s.players s.hostId pid
    player
  have h1 : handlePlayerDisconnect store code pid
      = (mapSet store code (applyDisconnect s pid player).session,
         .ok (applyDisconnect s pid player)) := by
    simp only [handlePlayerDisconnect, hs, hp]
  have hp2 : mapGet? (applyDisconnect s pid player).session.players pid
      = some pd := hpd
  have h2 : handlePlayerDisconnect
        (mapSet store code (applyDisconnect s pid player).session) code pid
      = (mapSet (mapSet store code (applyDisconnect s pid player).session)
           code (applyDisconnect (applyDisconnect s pid player).session pid
             pd).session,
         .ok (applyDisconnect (applyDisconnect s pid player).session pid
           pd)) := by
    simp only [handlePlayerDisconnect,
      mapGet?_set_self store code (applyDisconnect s pid player).session,
      hp2]
  have hadv := discAdvance_stable
    (discPlayers s.players s.hostId pid player).1
    (discPlayers s.players s.hostId pid player).2.1 s
  have hsess : (applyDisconnect (applyDisconnect s pid player).session pid
      pd).session = (applyDisconnect s pid player).session := by
    show ({ (applyDisconnect s pid player).session with
      players := (discPlayers
        (applyDisconnect s pid player).session.players
        (applyDisconnect s pid player).session.hostId pid pd).1,
      hostId := (discPlayers
        (applyDisconnect s pid player).session.players
        (applyDisconnect s pid player).session.hostId pid pd).2.1,
      rounds := (discAdvance (discPlayers
          (applyDisconnect s pid player).session.players
          (applyDisconnect s pid player).session.hostId pid pd).1
        (discPlayers
          (applyDisconnect s pid player).session.players
          (applyDisconnect s pid player).session.hostId pid pd).2.1
        (applyDisconnect s pid player).session).1,
      phase := (discAdvance (discPlayers
          (applyDisconnect s pid player).session.players
          (applyDisconnect s pid player).session.hostId pid pd).1
        (discPlayers
          (applyDisconnect s pid player).session.players
          (applyDisconnect s pid player).session.hostId pid pd).2.1
        (applyDisconnect s pid player).session).2.1 } : GameSession)
      = (applyDisconnect s pid player).session
    rw [show (applyDisconnect s pid player).session.players
        = (discPlayers s.players s.hostId pid player).1 from rfl,
      show (applyDisconnect s pid player).session.hostId
        = (discPlayers s.players s.hostId pid player).2.1 from rfl,
      hst1, hst2]
    rw [show (discAdvance (discPlayers s.players s.hostId pid player).1
        (discPlayers s.players s.hostId pid player).2.1
        (applyDisconnect s pid player).session)
      = ((discAdvance (discPlayers s.players s.hostId pid player).1
          (discPlayers s.players s.hostId pid player).2.1 s).1,
         (discAdvance (discPlayers s.players s.hostId pid player).1
          (discPlayers s.players s.hostId pid player).2.1 s).2.1,
         false) from hadv]
    rfl
  have hchanged : (applyDisconnect (applyDisconnect s pid player).session pid
      pd).phaseChanged = false := by
    show (discAdvance (discPlayers
        (applyDisconnect s pid player).session.players
        (applyDisconnect s pid player).session.hostId pid pd).1
      (discPlayers
        (applyDisconnect s pid player).session.players
        (applyDisconnect s pid player).session.hostId pid pd).2.1
      (applyDisconnect s pid player).session).2.2 = false
    rw [show (applyDisconnect s pid player).session.players
        = (discPlayers s.players s.hostId pid player).1 from rfl,
      show (applyDisconnect s pid player).session.hostId
        = (discPlayers s.players s.hostId pid player).2.1 from rfl,
      hst1, hst2]
    rw [show (discAdvance (discPlayers s.players s.hostId pid player).1
        (discPlayers s.players s.hostId pid player).2.1
        (applyDisconnect s pid player).session)
      = ((discAdvance (discPlayers s.players s.hostId pid player).1
          (discPlayers s.players s.hostId pid player).2.1 s).1,
         (discAdvance (discPlayers s.players s.hostId pid player).1
          (discPlayers s.players s.hostId pid player).2.1 s).2.1,
         false) from hadv]
  refine ⟨applyDisconnect s pid player,
    applyDisconnect (applyDisconnect s pid player).session pid pd,
    by rw [h1], by rw [h1, h2], hsess, hchanged, ?_⟩
  rw [h1, h2, hsess, mapSet_set_same]

/-- Witness for `handleDisconnect_idempotent`: `P2` disconnects before
responding; the round auto-advances once, and a repeated disconnect call
changes nothing. -/
def wSession8 : GameSession :=
  { code := "ABCDEF", hostId := "P1",
    players :=
      [("P1", { id := "P1", nickname := "Alice", isHost := true,
                isConnected := true, joinedAt := .date 1 }),
       ("P2", { id := "P2", nickname := "Bob", isHost := false,
                isConnected := true, joinedAt := .date 2 })],
    currentRound := 0, phase := .responding,
    rounds := [{ roundNumber := 0, prompt := "Q",
                 responses :=
                   [("R1", { id := "R1", playerId := "P1", text := "a",
                             submittedAt := .date 3 })],
                 guesses := [], results := none }],
    usedPrompts := ["Q"], createdAt := .date 0, expiresAt := .date 100 }

theorem handleDisconnect_idempotent_witness :
    mapGet? [("ABCDEF", wSession8)] "ABCDEF" = some wSession8 ∧
    ∃ o1 o2,
      (handlePlayerDisconnect [("ABCDEF", wSession8)] "ABCDEF" "P2").2
        = .ok o1 ∧
      (handlePlayerDisconnect
          (handlePlayerDisconnect [("ABCDEF", wSession8)] "ABCDEF" "P2").1
          "ABCDEF" "P2").2 = .ok o2 ∧
      o2.session = o1.session ∧ o2.phaseChanged = false ∧
      (handlePlayerDisconnect
          (handlePlayerDisconnect [("ABCDEF", wSession8)] "ABCDEF" "P2").1
          "ABCDEF" "P2").1
        = (handlePlayerDisconnect [("ABCDEF", wSession8)] "ABCDEF" "P2").1 :=
  ⟨by decide,
    handleDisconnect_idempotent [("ABCDEF", wSession8)] "ABCDEF" "P2"
      wSession8
      { id := "P2", nickname := "Bob", isHost := false, isConnected := true,
        joinedAt := .date 2 }
      (by decide) (by decide)⟩

end WST
